import Mathlib

/-!
# Night-light controller (`src/src/main.cpp`)

A shallow embedding of the button / sleep-timer / power-down logic of the
Arduino sketch.  Every global register of the sketch is a field of `State`;
every function of the sketch is a function `State → State` of the same name.
Hardware effects (EEPROM writes, pin writes, FastLED calls, delays, AVR sleep
primitives) are appended, in program order, to `State.trace`, together with a
marker for each call of `incrementSleepClock`, `flashLeds`, `powerDown` and
`wakeUp` and for each write of the volatile flag `poweredOn`.

Machine integers are natural numbers; arithmetic that can overflow is reduced
explicitly (`% 256` for `uint8_t`, `% 65536` for `uint16_t`, `% 2^32` for
`unsigned long`, which is 32 bits wide on AVR).
-/

namespace Nightlight

/-! ## Constants -/

/-- The macro `BRIGHTNESS` (line 17). -/
def BRIGHTNESS : Nat := 32

/-- The macro `EEPROM_ADDR_SLEEP` (line 19). -/
def EEPROM_ADDR_SLEEP : Nat := 0

/-- Two to the power 32: the modulus of `unsigned long` arithmetic. -/
def ULONG_MOD : Nat := 4294967296

/-- Milliseconds per hour, the value of `1000UL * 60UL * 60UL` (line 94). -/
def MS_PER_HOUR : Nat := 3600000

/-- The configurable globals of lines 24-28 that the control logic reads.
They are initialised once and never written. -/
structure Config where
  /-- The `uint16_t LONG_PRESS_TICKS`. -/
  LONG_PRESS_TICKS : Nat
  /-- The `uint8_t defaultSleepHours`. -/
  defaultSleepHours : Nat
  /-- The `uint8_t maxSleepHours`. -/
  maxSleepHours : Nat
  deriving DecidableEq, Repr

/-- The values the sketch is shipped with. -/
def sourceConfig : Config :=
  { LONG_PRESS_TICKS := 700, defaultSleepHours := 1, maxSleepHours := 4 }

/-! ## Observable effects -/

/-- One entry of the effect trace. -/
inductive Event where
  /-- The call `EEPROM.write(addr, val)`. -/
  | eepromWrite (addr val : Nat)
  /-- The call `digitalWrite(LED_BUILTIN, level)`; `true` is `HIGH`. -/
  | ledBuiltinWrite (level : Bool)
  /-- The call `FastLED.setBrightness(b)`. -/
  | setBrightness (b : Nat)
  /-- A frame pushed to the strip at the given scale: `FastLED.show()` uses
  the current global brightness, `FastLED.show(scale)` the given one. -/
  | ledShow (scale : Nat)
  /-- The call `delay(ms)`. -/
  | delay (ms : Nat)
  /-- The call `FastLED.delay(ms)`. -/
  | fastLedDelay (ms : Nat)
  /-- The call `updateColours()`. -/
  | updateColours
  /-- A write of the volatile flag `poweredOn`. -/
  | poweredOnWrite (b : Bool)
  /-- Entry of `incrementSleepClock()`. -/
  | callIncrementSleepClock
  /-- Entry of `flashLeds(count)`. -/
  | callFlashLeds (count : Nat)
  /-- Entry of `powerDown()`. -/
  | callPowerDown
  /-- Entry of `wakeUp()`. -/
  | callWakeUp
  /-- The call `set_sleep_mode(SLEEP_MODE_PWR_DOWN)`. -/
  | setSleepMode
  /-- The call `cli()`. -/
  | cli
  /-- The call `sei()`. -/
  | sei
  /-- The call `sleep_enable()`. -/
  | sleepEnable
  /-- The call `sleep_disable()`. -/
  | sleepDisable
  /-- The call `sleep_bod_disable()`. -/
  | sleepBodDisable
  /-- The call `attachInterrupt(digitalPinToInterrupt(BUTTON_PIN), wakeUp, LOW)`. -/
  | attachWake
  /-- The call `detachInterrupt(digitalPinToInterrupt(BUTTON_PIN))`. -/
  | detachWake
  /-- The call `sleep_cpu()`: the CPU halts here until the wake interrupt. -/
  | sleepCpu
  deriving DecidableEq, Repr

/-! ## State -/

/-- The registers of lines 36-44, the EEPROM byte at `EEPROM_ADDR_SLEEP`, the
FastLED global brightness, the level of `LED_BUILTIN`, and the effect trace.
The pixel buffer `leds` and `currentHue` belong to the rendering and are
represented only by the `updateColours` event; `ledToggle` is never used. -/
structure State where
  /-- The `uint8_t sleepHours`. -/
  sleepHours : Nat
  /-- The `uint16_t buttonHoldCount`. -/
  buttonHoldCount : Nat
  /-- The `bool buttonState`; `true` is `HIGH` (released), `false` is `LOW`. -/
  buttonState : Bool
  /-- The `bool longPress`. -/
  longPress : Bool
  /-- The `bool ignorePress`. -/
  ignorePress : Bool
  /-- The `volatile bool poweredOn`. -/
  poweredOn : Bool
  /-- The `unsigned long previousMillis`. -/
  previousMillis : Nat
  /-- The byte stored in EEPROM at `EEPROM_ADDR_SLEEP`. -/
  eeprom : Nat
  /-- The FastLED global brightness. -/
  brightness : Nat
  /-- The level of `LED_BUILTIN`; `true` is `HIGH`. -/
  ledBuiltin : Bool
  /-- Effects so far, oldest first. -/
  trace : List Event
  deriving DecidableEq, Repr

/-- What one pass through `loop()` reads from its environment. -/
structure LoopInput where
  /-- The value `millis()` returns in `checkSleepTimer` (line 93). -/
  millisCheck : Nat
  /-- The value `millis()` returns in `resetTimer` (line 89), when it runs. -/
  millisReset : Nat
  /-- Whether the button is asserted when `digitalRead(BUTTON_PIN)` samples it
  (the pin is active-low: pressed reads `LOW`). -/
  pressed : Bool
  deriving DecidableEq, Repr

/-- The registers as initialised at lines 36-44 (statics without initialiser
are zero), before `setup()`, over a given EEPROM byte. -/
def boot (eepromByte : Nat) : State :=
  { sleepHours := 0, buttonHoldCount := 0, buttonState := true,
    longPress := false, ignorePress := false, poweredOn := true,
    previousMillis := 0, eeprom := eepromByte, brightness := 255,
    ledBuiltin := false, trace := [] }

/-! ## Primitive effects -/

/-- Append one event to the trace. -/
def emit (e : Event) (s : State) : State :=
  { s with trace := s.trace ++ [e] }

/-- The call `FastLED.setBrightness(b)`. -/
def setBrightness (b : Nat) (s : State) : State :=
  emit (Event.setBrightness b) { s with brightness := b }

/-- The call `FastLED.show()`. -/
def showLeds (s : State) : State :=
  emit (Event.ledShow s.brightness) s

/-- The call `FastLED.show(scale)`. -/
def showLedsAt (scale : Nat) (s : State) : State :=
  emit (Event.ledShow scale) s

/-- The call `digitalWrite(LED_BUILTIN, level)`. -/
def writeLedBuiltin (level : Bool) (s : State) : State :=
  emit (Event.ledBuiltinWrite level) { s with ledBuiltin := level }

/-- An assignment to the volatile flag `poweredOn`. -/
def writePoweredOn (b : Bool) (s : State) : State :=
  emit (Event.poweredOnWrite b) { s with poweredOn := b }

/-! ## The functions of the sketch -/

/-- Lines 46-48. -/
def writeSleepHours (s : State) : State :=
  emit (Event.eepromWrite EEPROM_ADDR_SLEEP s.sleepHours) { s with eeprom := s.sleepHours }

/-- Lines 50-60. -/
def initSleepHours (cfg : Config) (s : State) : State :=
  let eepromValue := s.eeprom
  let s1 : State :=
    if eepromValue > cfg.maxSleepHours || eepromValue < 1 then
      { s with sleepHours := cfg.defaultSleepHours }
    else
      { s with sleepHours := eepromValue }
  writeSleepHours s1

/-- Lines 63-75. The pin-mode and strip registration calls have no effect on
the modelled state. -/
def setup (cfg : Config) (s : State) : State :=
  writeLedBuiltin true (setBrightness BRIGHTNESS (initSleepHours cfg s))

/-- Lines 77-81. -/
def resetButtonState (s : State) : State :=
  { s with longPress := false, ignorePress := false, buttonHoldCount := 0 }

/-- Lines 83-86. -/
def updateColours (s : State) : State :=
  emit Event.updateColours s

/-- Lines 88-90; `now` is what `millis()` returns. -/
def resetTimer (now : Nat) (s : State) : State :=
  { s with previousMillis := now % ULONG_MOD }

/-- The `unsigned long interval` of line 94 (the build without `DEBUG_MODE`,
as the sketch is written). -/
def sleepInterval (s : State) : Nat :=
  (s.sleepHours * MS_PER_HOUR) % ULONG_MOD

/-- The value of `(unsigned long)(currentMillis - previousMillis)` at line
101 when `millis()` returned `now`. -/
def elapsedMillis (now : Nat) (s : State) : Nat :=
  (now % ULONG_MOD + ULONG_MOD - s.previousMillis % ULONG_MOD) % ULONG_MOD

/-- The test of line 101. -/
def timerExpired (now : Nat) (s : State) : Bool :=
  decide (elapsedMillis now s ≥ sleepInterval s)

/-- Lines 92-107; `now` is the `millis()` of line 93 and `nowReset` the one
read by `resetTimer`. -/
def checkSleepTimer (now nowReset : Nat) (s : State) : State :=
  if timerExpired now s then
    resetTimer nowReset (writePoweredOn false s)
  else
    writePoweredOn true s

/-- One pass of the body of the loops in `fadeIn` and `fadeOut`. -/
def fadeStep (s : State) (i : Nat) : State :=
  emit (Event.fastLedDelay 2) (setBrightness i s)

/-- Lines 109-114: `i` runs from `0` up to `BRIGHTNESS`. -/
def fadeIn (s : State) : State :=
  (List.range (BRIGHTNESS + 1)).foldl fadeStep s

/-- Lines 116-121: `i` runs from `BRIGHTNESS` down to `0`. -/
def fadeOut (s : State) : State :=
  (List.range (BRIGHTNESS + 1)).reverse.foldl fadeStep s

/-- One pass of the loop body of `flashLeds` (lines 132-142). -/
def flashOnce (s : State) : State :=
  let s1 := updateColours s
  let s2 := setBrightness BRIGHTNESS s1
  let s3 := showLedsAt BRIGHTNESS s2
  let s4 := emit (Event.delay 250) s3
  let s5 := updateColours s4
  let s6 := setBrightness 0 s5
  let s7 := showLedsAt 0 s6
  emit (Event.delay 300) s7

/-- The loop of lines 130-143, run `count` times. -/
def flashLoop : Nat → State → State
  | 0, s => s
  | n + 1, s => flashLoop n (flashOnce s)

/-- Lines 123-149. -/
def flashLeds (count : Nat) (s : State) : State :=
  let s0 := emit (Event.callFlashLeds count) s
  let s1 := fadeOut s0
  let s2 := emit (Event.delay 500) s1
  let s3 := flashLoop count s2
  let s4 := emit (Event.delay 300) s3
  fadeIn s4

/-- The value of `sleepHours` after lines 152-155. -/
def nextSleepHours (cfg : Config) (d : Nat) : Nat :=
  let d1 := (d + 1) % 256
  if d1 > cfg.maxSleepHours then 1 else d1

/-- Lines 151-158. -/
def incrementSleepClock (cfg : Config) (s : State) : State :=
  let s0 := emit Event.callIncrementSleepClock s
  let s1 : State := { s0 with sleepHours := nextSleepHours cfg s0.sleepHours }
  let s2 := writeSleepHours s1
  flashLeds s2.sleepHours s2

/-- Lines 160-168. -/
def wakeUp (s : State) : State :=
  let s0 := emit Event.callWakeUp s
  let s1 := emit Event.sleepDisable s0
  let s2 := emit Event.detachWake s1
  let s3 := writeLedBuiltin true s2
  let s4 := fadeIn s3
  { s4 with ignorePress := true }

/-- Lines 170-187. At `sleep_cpu()` the CPU halts until the low-level
interrupt on the button pin fires; the handler `wakeUp` then runs and
execution resumes after the halt. The function describes a call that returns,
that is, one whose halt is ended by the wake interrupt. -/
def powerDown (s : State) : State :=
  let s0 := emit Event.callPowerDown s
  let s1 := fadeOut s0
  let s2 := writeLedBuiltin false s1
  let s3 := emit (Event.delay 2000) s2
  let s4 := emit Event.setSleepMode s3
  let s5 := emit Event.cli s4
  let s6 :=
    if !s5.poweredOn then
      let t1 := emit Event.sleepEnable s5
      let t2 := emit Event.sleepBodDisable t1
      let t3 := emit Event.attachWake t2
      let t4 := emit Event.sei t3
      let t5 := emit Event.sleepCpu t4
      wakeUp t5
    else s5
  emit Event.sei s6

/-- Lines 195-210: the button branch of `loop()`, after the sample has been
stored in `buttonState`. -/
def handleButton (cfg : Config) (s : State) : State :=
  if s.buttonState == false then
    let s1 : State := { s with buttonHoldCount := (s.buttonHoldCount + 1) % 65536 }
    if !s1.longPress && decide (s1.buttonHoldCount ≥ cfg.LONG_PRESS_TICKS) then
      writePoweredOn false { s1 with longPress := true }
    else s1
  else
    let s1 :=
      if decide (s.buttonHoldCount > 0) && !s.longPress && !s.ignorePress then
        incrementSleepClock cfg s
      else s
    resetButtonState s1

/-- Lines 189-220. -/
def loop (cfg : Config) (s : State) (inp : LoopInput) : State :=
  let s1 := checkSleepTimer inp.millisCheck inp.millisReset s
  let s2 := updateColours s1
  let s3 : State := { s2 with buttonState := !inp.pressed }
  let s4 := handleButton cfg s3
  let s5 := if !s4.poweredOn then powerDown s4 else setBrightness BRIGHTNESS s4
  showLeds s5

/-- Consecutive passes through `loop()`, one per input. -/
def runLoop (cfg : Config) (s : State) (inputs : List LoopInput) : State :=
  inputs.foldl (loop cfg) s

/-! ## Effect summaries

Closed forms of the event sequences the functions above append to the trace,
and the predicates the statements below are phrased with. -/

/-- Events of a brightness ramp through the given levels. -/
def fadeTrace : List Nat → List Event
  | [] => []
  | i :: l => Event.setBrightness i :: Event.fastLedDelay 2 :: fadeTrace l

/-- Events of `fadeIn`: levels `0, 1, ..., BRIGHTNESS`. -/
def fadeInEvents : List Event := fadeTrace (List.range (BRIGHTNESS + 1))

/-- Events of `fadeOut`: levels `BRIGHTNESS, ..., 1, 0`. -/
def fadeOutEvents : List Event := fadeTrace (List.range (BRIGHTNESS + 1)).reverse

/-- Events of one blink: an on-phase at `BRIGHTNESS`, then an off-phase at `0`. -/
def blinkEvents : List Event :=
  [Event.updateColours, Event.setBrightness BRIGHTNESS, Event.ledShow BRIGHTNESS,
   Event.delay 250,
   Event.updateColours, Event.setBrightness 0, Event.ledShow 0, Event.delay 300]

/-- Events of `n` consecutive blinks. -/
def blinkTrace : Nat → List Event
  | 0 => []
  | n + 1 => blinkEvents ++ blinkTrace n

/-- Events of `flashLeds(count)`. -/
def flashEvents (count : Nat) : List Event :=
  Event.callFlashLeds count :: fadeOutEvents ++ [Event.delay 500] ++ blinkTrace count ++
    [Event.delay 300] ++ fadeInEvents

/-- Events of `incrementSleepClock()` when it leaves `sleepHours = k`. -/
def incrementEvents (k : Nat) : List Event :=
  Event.callIncrementSleepClock :: Event.eepromWrite EEPROM_ADDR_SLEEP k :: flashEvents k

/-- Events of `wakeUp()`. -/
def wakeEvents : List Event :=
  [Event.callWakeUp, Event.sleepDisable, Event.detachWake, Event.ledBuiltinWrite true] ++
    fadeInEvents

/-- Events of `powerDown()` when `poweredOn` is false at the re-check. -/
def powerDownEvents : List Event :=
  Event.callPowerDown :: fadeOutEvents ++
    [Event.ledBuiltinWrite false, Event.delay 2000, Event.setSleepMode, Event.cli,
     Event.sleepEnable, Event.sleepBodDisable, Event.attachWake, Event.sei,
     Event.sleepCpu] ++ wakeEvents ++ [Event.sei]

/-- Events of `powerDown()` when `poweredOn` is true at the re-check. -/
def powerDownSkipEvents : List Event :=
  Event.callPowerDown :: fadeOutEvents ++
    [Event.ledBuiltinWrite false, Event.delay 2000, Event.setSleepMode, Event.cli,
     Event.sei]

/-- The condition of line 205 for an iteration that samples the button
released: the release completes a short press. -/
def isShortPress (s : State) (inp : LoopInput) : Bool :=
  !inp.pressed && decide (s.buttonHoldCount > 0) && !s.longPress && !s.ignorePress

/-- No pass through `loop()` of the run finds the idle timer expired at line
101. -/
def noIdleTimeout (cfg : Config) : State → List LoopInput → Bool
  | _, [] => true
  | s, inp :: rest =>
    !timerExpired inp.millisCheck s && noIdleTimeout cfg (loop cfg s inp) rest

/-- Number of calls of `incrementSleepClock` recorded so far. -/
def incrementCalls (s : State) : Nat :=
  s.trace.count Event.callIncrementSleepClock

/-- Number of writes `poweredOn = false` recorded so far. -/
def powerOffWrites (s : State) : Nat :=
  s.trace.count (Event.poweredOnWrite false)

/-- Number of calls of `powerDown` recorded so far. -/
def powerDownCalls (s : State) : Nat :=
  s.trace.count Event.callPowerDown

/-- Number of runs of the handler `wakeUp` recorded so far. -/
def wakeUpCalls (s : State) : Nat :=
  s.trace.count Event.callWakeUp

/-! ## Concrete states and inputs -/

/-- The state after `setup()` on a device whose EEPROM slot holds `255`. -/
def bootedState : State := setup sourceConfig (boot 255)

/-- A pass that samples the button pressed, at clock value `0`. -/
def heldSample : LoopInput := { millisCheck := 0, millisReset := 0, pressed := true }

/-- A pass that samples the button released, at clock value `0`. -/
def releasedSample : LoopInput := { millisCheck := 0, millisReset := 0, pressed := false }

/-- A pass that samples the button pressed at clock value `3600000`, one hour
after boot, with `resetTimer` reading the same clock value. -/
def hourHeldSample : LoopInput :=
  { millisCheck := 3600000, millisReset := 3600000, pressed := true }

/-- A pass that samples the button released at clock value `3600000`. -/
def hourReleasedSample : LoopInput :=
  { millisCheck := 3600000, millisReset := 3600000, pressed := false }

/-- The shipped configuration with `maxSleepHours` raised to the largest
8-bit value. -/
def widestConfig : Config := { sourceConfig with maxSleepHours := 255 }

/-- A pass that samples the button pressed at clock value `1000`. -/
def earlyHeldSample : LoopInput :=
  { millisCheck := 1000, millisReset := 1000, pressed := true }

/-- A pass that samples the button pressed at clock value `3540000`, 59
minutes after boot. -/
def lateHeldSample : LoopInput :=
  { millisCheck := 3540000, millisReset := 3540000, pressed := true }

/-- The booted state with the press registers as 699 pressed passes without
idle timeout leave them: the hold counter is one short of `LONG_PRESS_TICKS`. -/
def nearLongPressState : State := { bootedState with buttonHoldCount := 699 }

/-- The booted state with the press registers as a hold of 65535 passes leaves
them: the long press has engaged, the device has slept and been woken by the
held button, and the 16-bit hold counter is at its largest value. -/
def fullCounterState : State :=
  { bootedState with buttonHoldCount := 65535, longPress := true, ignorePress := true }

/-! ## Predicates on one pass -/

/-- The test of line 198 for a pass that samples the button pressed: the
long-press branch is taken in this pass. -/
def longPressEngages (cfg : Config) (s : State) (inp : LoopInput) : Bool :=
  inp.pressed && !s.longPress &&
    decide ((s.buttonHoldCount + 1) % 65536 ≥ cfg.LONG_PRESS_TICKS)

/-- The idle timer expires in this pass or the long press engages in it. -/
def powerDownTrigger (cfg : Config) (s : State) (inp : LoopInput) : Bool :=
  timerExpired inp.millisCheck s || longPressEngages cfg s inp

/-- Number of occurrences of an event recorded so far. -/
def eventCount (e : Event) (s : State) : Nat :=
  s.trace.count e

/-! ## Closed forms of the effectful functions -/

theorem foldl_fadeStep (l : List Nat) (s : State) :
    l.foldl fadeStep s =
      { s with brightness := l.foldl (fun _ i => i) s.brightness,
               trace := s.trace ++ fadeTrace l } := by
  induction l generalizing s with
  | nil => simp [fadeTrace]
  | cons i l ih =>
    rw [List.foldl_cons, ih]
    simp [fadeStep, emit, setBrightness, fadeTrace]

theorem fadeIn_eq (s : State) :
    fadeIn s = { s with brightness := BRIGHTNESS, trace := s.trace ++ fadeInEvents } := by
  rw [fadeIn, foldl_fadeStep]; rfl

theorem fadeOut_eq (s : State) :
    fadeOut s = { s with brightness := 0, trace := s.trace ++ fadeOutEvents } := by
  rw [fadeOut, foldl_fadeStep]; rfl

theorem flashOnce_eq (s : State) :
    flashOnce s = { s with brightness := 0, trace := s.trace ++ blinkEvents } := by
  simp [flashOnce, updateColours, setBrightness, showLedsAt, emit, blinkEvents]

theorem flashLoop_eq (n : Nat) (s : State) :
    flashLoop n s =
      { s with brightness := if n = 0 then s.brightness else 0,
               trace := s.trace ++ blinkTrace n } := by
  induction n generalizing s with
  | zero => simp [flashLoop, blinkTrace]
  | succ n ih =>
    rw [flashLoop, ih, flashOnce_eq]
    simp [blinkTrace]

theorem flashLeds_eq (count : Nat) (s : State) :
    flashLeds count s =
      { s with brightness := BRIGHTNESS, trace := s.trace ++ flashEvents count } := by
  simp [flashLeds, fadeIn_eq, fadeOut_eq, flashLoop_eq, emit, flashEvents]

theorem incrementSleepClock_eq (cfg : Config) (s : State) :
    incrementSleepClock cfg s =
      { s with sleepHours := nextSleepHours cfg s.sleepHours,
               eeprom := nextSleepHours cfg s.sleepHours,
               brightness := BRIGHTNESS,
               trace := s.trace ++ incrementEvents (nextSleepHours cfg s.sleepHours) } := by
  simp [incrementSleepClock, writeSleepHours, flashLeds_eq, emit, incrementEvents]

theorem wakeUp_eq (s : State) :
    wakeUp s =
      { s with ignorePress := true, ledBuiltin := true, brightness := BRIGHTNESS,
               trace := s.trace ++ wakeEvents } := by
  simp [wakeUp, writeLedBuiltin, fadeIn_eq, emit, wakeEvents]

theorem powerDown_eq_of_off (s : State) (h : s.poweredOn = false) :
    powerDown s =
      { s with ignorePress := true, ledBuiltin := true, brightness := BRIGHTNESS,
               trace := s.trace ++ powerDownEvents } := by
  simp [powerDown, writeLedBuiltin, fadeOut_eq, wakeUp_eq, emit, powerDownEvents, h]

theorem powerDown_eq_of_on (s : State) (h : s.poweredOn = true) :
    powerDown s =
      { s with ledBuiltin := false, brightness := 0,
               trace := s.trace ++ powerDownSkipEvents } := by
  simp [powerDown, writeLedBuiltin, fadeOut_eq, emit, powerDownSkipEvents, h]


/-! ## Closed form of one pass through `loop()` -/

theorem checkSleepTimer_eq (now nowReset : Nat) (s : State) :
    checkSleepTimer now nowReset s =
      { s with poweredOn := !timerExpired now s,
               previousMillis :=
                 if timerExpired now s then nowReset % ULONG_MOD else s.previousMillis,
               trace := s.trace ++ [Event.poweredOnWrite (!timerExpired now s)] } := by
  unfold checkSleepTimer
  cases timerExpired now s <;> simp [resetTimer, writePoweredOn, emit]

theorem powerStage_eq (s : State) :
    (if !s.poweredOn then powerDown s else setBrightness BRIGHTNESS s) =
      { s with ignorePress := s.ignorePress || !s.poweredOn,
               ledBuiltin := s.ledBuiltin || !s.poweredOn,
               brightness := BRIGHTNESS,
               trace := s.trace ++
                 (if s.poweredOn then [Event.setBrightness BRIGHTNESS] else powerDownEvents) } := by
  obtain ⟨sh, c, bs, lp, ip, po, pm, ee, br, lb, tr⟩ := s
  cases po
  · simp [powerDown_eq_of_off]
  · simp [setBrightness, emit]

theorem handleButton_pressed_eq (cfg : Config) (s : State) (h : s.buttonState = false) :
    handleButton cfg s =
      { s with
          buttonHoldCount := (s.buttonHoldCount + 1) % 65536,
          longPress := s.longPress ||
            decide ((s.buttonHoldCount + 1) % 65536 ≥ cfg.LONG_PRESS_TICKS),
          poweredOn := s.poweredOn &&
            !(!s.longPress && decide ((s.buttonHoldCount + 1) % 65536 ≥ cfg.LONG_PRESS_TICKS)),
          trace := s.trace ++
            (if !s.longPress && decide ((s.buttonHoldCount + 1) % 65536 ≥ cfg.LONG_PRESS_TICKS)
              then [Event.poweredOnWrite false] else []) } := by
  obtain ⟨sh, c, bs, lp, ip, po, pm, ee, br, lb, tr⟩ := s
  simp only at h
  subst h
  cases lp <;> by_cases hc : (c + 1) % 65536 ≥ cfg.LONG_PRESS_TICKS <;>
    simp [handleButton, writePoweredOn, emit, hc]

theorem handleButton_released_eq (cfg : Config) (s : State) (h : s.buttonState = true) :
    handleButton cfg s =
      { s with
          sleepHours := if decide (s.buttonHoldCount > 0) && !s.longPress && !s.ignorePress
            then nextSleepHours cfg s.sleepHours else s.sleepHours,
          eeprom := if decide (s.buttonHoldCount > 0) && !s.longPress && !s.ignorePress
            then nextSleepHours cfg s.sleepHours else s.eeprom,
          brightness := if decide (s.buttonHoldCount > 0) && !s.longPress && !s.ignorePress
            then BRIGHTNESS else s.brightness,
          buttonHoldCount := 0,
          longPress := false,
          ignorePress := false,
          trace := s.trace ++
            (if decide (s.buttonHoldCount > 0) && !s.longPress && !s.ignorePress
              then incrementEvents (nextSleepHours cfg s.sleepHours) else []) } := by
  obtain ⟨sh, c, bs, lp, ip, po, pm, ee, br, lb, tr⟩ := s
  simp only at h
  subst h
  cases lp <;> cases ip <;> by_cases hc : c > 0 <;>
    simp [handleButton, resetButtonState, incrementSleepClock_eq, hc]

theorem loop_unfold (cfg : Config) (s : State) (inp : LoopInput) :
    loop cfg s inp =
      showLeds
        (if !(handleButton cfg
              { updateColours (checkSleepTimer inp.millisCheck inp.millisReset s) with
                buttonState := !inp.pressed }).poweredOn
          then powerDown (handleButton cfg
              { updateColours (checkSleepTimer inp.millisCheck inp.millisReset s) with
                buttonState := !inp.pressed })
          else setBrightness BRIGHTNESS (handleButton cfg
              { updateColours (checkSleepTimer inp.millisCheck inp.millisReset s) with
                buttonState := !inp.pressed })) := rfl

theorem loop_pressed_eq (cfg : Config) (s : State) (mc mr : Nat) :
    loop cfg s ⟨mc, mr, true⟩ =
      { s with
          buttonHoldCount := (s.buttonHoldCount + 1) % 65536,
          buttonState := false,
          longPress := s.longPress ||
            decide ((s.buttonHoldCount + 1) % 65536 ≥ cfg.LONG_PRESS_TICKS),
          ignorePress := s.ignorePress || timerExpired mc s ||
            (!s.longPress && decide ((s.buttonHoldCount + 1) % 65536 ≥ cfg.LONG_PRESS_TICKS)),
          poweredOn := !(timerExpired mc s ||
            (!s.longPress && decide ((s.buttonHoldCount + 1) % 65536 ≥ cfg.LONG_PRESS_TICKS))),
          previousMillis := if timerExpired mc s then mr % ULONG_MOD else s.previousMillis,
          ledBuiltin := s.ledBuiltin || timerExpired mc s ||
            (!s.longPress && decide ((s.buttonHoldCount + 1) % 65536 ≥ cfg.LONG_PRESS_TICKS)),
          brightness := BRIGHTNESS,
          trace := s.trace ++ [Event.poweredOnWrite (!timerExpired mc s), Event.updateColours] ++
            (if !s.longPress && decide ((s.buttonHoldCount + 1) % 65536 ≥ cfg.LONG_PRESS_TICKS)
              then [Event.poweredOnWrite false] else []) ++
            (if timerExpired mc s ||
                (!s.longPress && decide ((s.buttonHoldCount + 1) % 65536 ≥ cfg.LONG_PRESS_TICKS))
              then powerDownEvents else [Event.setBrightness BRIGHTNESS]) ++
            [Event.ledShow BRIGHTNESS] } := by
  rw [loop_unfold, powerStage_eq, handleButton_pressed_eq _ _ (by rfl), checkSleepTimer_eq]
  cases he : timerExpired mc s <;> cases hl : s.longPress <;>
    by_cases h : (s.buttonHoldCount + 1) % 65536 ≥ cfg.LONG_PRESS_TICKS <;>
    simp [h, he, hl, updateColours, emit, showLeds]

theorem loop_released_eq (cfg : Config) (s : State) (mc mr : Nat) :
    loop cfg s ⟨mc, mr, false⟩ =
      { s with
          sleepHours := if isShortPress s ⟨mc, mr, false⟩
            then nextSleepHours cfg s.sleepHours else s.sleepHours,
          eeprom := if isShortPress s ⟨mc, mr, false⟩
            then nextSleepHours cfg s.sleepHours else s.eeprom,
          buttonHoldCount := 0,
          buttonState := true,
          longPress := false,
          ignorePress := timerExpired mc s,
          poweredOn := !timerExpired mc s,
          previousMillis := if timerExpired mc s then mr % ULONG_MOD else s.previousMillis,
          ledBuiltin := s.ledBuiltin || timerExpired mc s,
          brightness := BRIGHTNESS,
          trace := s.trace ++ [Event.poweredOnWrite (!timerExpired mc s), Event.updateColours] ++
            (if isShortPress s ⟨mc, mr, false⟩
              then incrementEvents (nextSleepHours cfg s.sleepHours) else []) ++
            (if timerExpired mc s then powerDownEvents else [Event.setBrightness BRIGHTNESS]) ++
            [Event.ledShow BRIGHTNESS] } := by
  rw [loop_unfold, powerStage_eq, handleButton_released_eq _ _ (by rfl), checkSleepTimer_eq]
  cases he : timerExpired mc s <;> cases hl : s.longPress <;> cases hi : s.ignorePress <;>
    by_cases h : s.buttonHoldCount > 0 <;>
    simp [h, he, hl, hi, updateColours, emit, showLeds, isShortPress]


/-! ## Runs of several passes -/

theorem runLoop_nil (cfg : Config) (s : State) : runLoop cfg s [] = s := rfl

theorem runLoop_cons (cfg : Config) (s : State) (inp : LoopInput) (rest : List LoopInput) :
    runLoop cfg s (inp :: rest) = runLoop cfg (loop cfg s inp) rest := rfl

theorem runLoop_append (cfg : Config) (s : State) (xs ys : List LoopInput) :
    runLoop cfg s (xs ++ ys) = runLoop cfg (runLoop cfg s xs) ys := by
  simp [runLoop, List.foldl_append]

theorem noIdleTimeout_append (cfg : Config) (xs ys : List LoopInput) (s : State) :
    noIdleTimeout cfg s (xs ++ ys) =
      (noIdleTimeout cfg s xs && noIdleTimeout cfg (runLoop cfg s xs) ys) := by
  induction xs generalizing s with
  | nil => simp [noIdleTimeout, runLoop_nil]
  | cons x xs ih => simp [noIdleTimeout, runLoop_cons, ih, Bool.and_assoc]

/-- A pressed pass that neither times out nor reaches the long-press threshold
only advances the hold counter. -/
theorem loop_pressed_quiet (cfg : Config) (s : State) (inp : LoopInput)
    (hp : inp.pressed = true) (he : timerExpired inp.millisCheck s = false)
    (hl : s.longPress = false) (hc : s.buttonHoldCount + 1 < cfg.LONG_PRESS_TICKS)
    (hT : cfg.LONG_PRESS_TICKS ≤ 65536) :
    loop cfg s inp =
      { s with buttonHoldCount := s.buttonHoldCount + 1, buttonState := false,
               poweredOn := true, brightness := BRIGHTNESS,
               trace := s.trace ++ [Event.poweredOnWrite true, Event.updateColours,
                 Event.setBrightness BRIGHTNESS, Event.ledShow BRIGHTNESS] } := by
  obtain ⟨mc, mr, p⟩ := inp
  simp only at hp he
  subst hp
  have hm : (s.buttonHoldCount + 1) % 65536 = s.buttonHoldCount + 1 :=
    Nat.mod_eq_of_lt (by omega)
  have hn : ¬ (s.buttonHoldCount + 1 ≥ cfg.LONG_PRESS_TICKS) := by omega
  rw [loop_pressed_eq]
  simp [he, hl, hm, hn]

/-- The pressed pass on which the hold counter reaches the threshold engages
the long press: it writes `poweredOn = false` once and runs `powerDown`. -/
theorem loop_pressed_engage (cfg : Config) (s : State) (inp : LoopInput)
    (hp : inp.pressed = true) (he : timerExpired inp.millisCheck s = false)
    (hl : s.longPress = false) (hc : cfg.LONG_PRESS_TICKS ≤ s.buttonHoldCount + 1)
    (hlt : s.buttonHoldCount + 1 < 65536) :
    loop cfg s inp =
      { s with buttonHoldCount := s.buttonHoldCount + 1, buttonState := false,
               longPress := true, ignorePress := true, poweredOn := false,
               ledBuiltin := true, brightness := BRIGHTNESS,
               trace := s.trace ++ [Event.poweredOnWrite true, Event.updateColours,
                 Event.poweredOnWrite false] ++ powerDownEvents ++
                 [Event.ledShow BRIGHTNESS] } := by
  obtain ⟨mc, mr, p⟩ := inp
  simp only at hp he
  subst hp
  have hm : (s.buttonHoldCount + 1) % 65536 = s.buttonHoldCount + 1 :=
    Nat.mod_eq_of_lt hlt
  rw [loop_pressed_eq]
  simp [he, hl, hm, hc]

/-- A released pass without idle timeout: the short-press test decides whether
`incrementSleepClock` runs, and the press state is reset. -/
theorem loop_released_quiet (cfg : Config) (s : State) (inp : LoopInput)
    (hp : inp.pressed = false) (he : timerExpired inp.millisCheck s = false) :
    loop cfg s inp =
      { s with
          sleepHours := if isShortPress s inp
            then nextSleepHours cfg s.sleepHours else s.sleepHours,
          eeprom := if isShortPress s inp
            then nextSleepHours cfg s.sleepHours else s.eeprom,
          buttonHoldCount := 0, buttonState := true, longPress := false,
          ignorePress := false, poweredOn := true, brightness := BRIGHTNESS,
          trace := s.trace ++ [Event.poweredOnWrite true, Event.updateColours] ++
            (if isShortPress s inp
              then incrementEvents (nextSleepHours cfg s.sleepHours) else []) ++
            [Event.setBrightness BRIGHTNESS, Event.ledShow BRIGHTNESS] } := by
  obtain ⟨mc, mr, p⟩ := inp
  simp only at hp he
  subst hp
  rw [loop_released_eq]
  simp [he]


/-! ## Counting events -/

theorem count_blinkTrace (e : Event) (n : Nat) :
    (blinkTrace n).count e = n * blinkEvents.count e := by
  induction n with
  | zero => simp [blinkTrace]
  | succ n ih => simp [blinkTrace, List.count_append, ih]; ring

theorem count_flashEvents (e : Event) (k : Nat) :
    (flashEvents k).count e =
      [Event.callFlashLeds k].count e + fadeOutEvents.count e + [Event.delay 500].count e +
        k * blinkEvents.count e + [Event.delay 300].count e + fadeInEvents.count e := by
  have h : flashEvents k = [Event.callFlashLeds k] ++ fadeOutEvents ++ [Event.delay 500] ++
      blinkTrace k ++ [Event.delay 300] ++ fadeInEvents := by
    simp [flashEvents]
  rw [h]
  simp only [List.count_append, count_blinkTrace]

theorem incrementEvents_count_call (k : Nat) :
    (incrementEvents k).count Event.callIncrementSleepClock = 1 := by
  have h1 : fadeOutEvents.count Event.callIncrementSleepClock = 0 := by decide
  have h2 : fadeInEvents.count Event.callIncrementSleepClock = 0 := by decide
  have h3 : blinkEvents.count Event.callIncrementSleepClock = 0 := by decide
  simp [incrementEvents, count_flashEvents, h1, h2, h3]

theorem incrementEvents_count_off (k : Nat) :
    (incrementEvents k).count (Event.poweredOnWrite false) = 0 := by
  have h1 : fadeOutEvents.count (Event.poweredOnWrite false) = 0 := by decide
  have h2 : fadeInEvents.count (Event.poweredOnWrite false) = 0 := by decide
  have h3 : blinkEvents.count (Event.poweredOnWrite false) = 0 := by decide
  simp [incrementEvents, count_flashEvents, h1, h2, h3]

theorem incrementEvents_count_powerDown (k : Nat) :
    (incrementEvents k).count Event.callPowerDown = 0 := by
  have h1 : fadeOutEvents.count Event.callPowerDown = 0 := by decide
  have h2 : fadeInEvents.count Event.callPowerDown = 0 := by decide
  have h3 : blinkEvents.count Event.callPowerDown = 0 := by decide
  simp [incrementEvents, count_flashEvents, h1, h2, h3]

theorem powerDownEvents_count_call :
    powerDownEvents.count Event.callIncrementSleepClock = 0 := by decide

theorem powerDownEvents_count_off :
    powerDownEvents.count (Event.poweredOnWrite false) = 0 := by decide

theorem powerDownEvents_count_powerDown :
    powerDownEvents.count Event.callPowerDown = 1 := by decide


/-! ## A hold below the long-press threshold -/

/-- Pressed passes without idle timeout that stay below the threshold only
advance the hold counter: no short press, no write `poweredOn = false`, no
`powerDown`. -/
theorem runLoop_held_below (cfg : Config) (held : List LoopInput) (s : State)
    (hp : ∀ i ∈ held, i.pressed = true) (hno : noIdleTimeout cfg s held = true)
    (hl : s.longPress = false)
    (hc : s.buttonHoldCount + held.length < cfg.LONG_PRESS_TICKS)
    (hT : cfg.LONG_PRESS_TICKS ≤ 65536) :
    (runLoop cfg s held).buttonHoldCount = s.buttonHoldCount + held.length ∧
    (runLoop cfg s held).longPress = false ∧
    (runLoop cfg s held).ignorePress = s.ignorePress ∧
    (runLoop cfg s held).sleepHours = s.sleepHours ∧
    (runLoop cfg s held).eeprom = s.eeprom ∧
    incrementCalls (runLoop cfg s held) = incrementCalls s ∧
    powerOffWrites (runLoop cfg s held) = powerOffWrites s ∧
    powerDownCalls (runLoop cfg s held) = powerDownCalls s := by
  induction held generalizing s with
  | nil => simp [runLoop_nil, hl]
  | cons inp rest ih =>
    have hpi : inp.pressed = true := hp inp (List.mem_cons_self _ _)
    simp only [noIdleTimeout, Bool.and_eq_true, Bool.not_eq_true'] at hno
    simp only [List.length_cons] at hc
    have hstep := loop_pressed_quiet cfg s inp hpi hno.1 hl (by omega) hT
    have f1 : (loop cfg s inp).buttonHoldCount = s.buttonHoldCount + 1 := by rw [hstep]
    have f2 : (loop cfg s inp).longPress = false := by rw [hstep]; exact hl
    have f3 : (loop cfg s inp).ignorePress = s.ignorePress := by rw [hstep]
    have f4 : (loop cfg s inp).sleepHours = s.sleepHours := by rw [hstep]
    have f5 : (loop cfg s inp).eeprom = s.eeprom := by rw [hstep]
    have f6 : incrementCalls (loop cfg s inp) = incrementCalls s := by
      rw [hstep]; simp [incrementCalls, List.count_append, BRIGHTNESS]
    have f7 : powerOffWrites (loop cfg s inp) = powerOffWrites s := by
      rw [hstep]; simp [powerOffWrites, List.count_append, BRIGHTNESS]
    have f8 : powerDownCalls (loop cfg s inp) = powerDownCalls s := by
      rw [hstep]; simp [powerDownCalls, List.count_append, BRIGHTNESS]
    have hrest := ih (loop cfg s inp) (fun i hi => hp i (List.mem_cons_of_mem _ hi)) hno.2
      f2 (by rw [f1]; omega)
    rw [runLoop_cons]
    rw [f1, f3, f4, f5, f6, f7, f8] at hrest
    obtain ⟨h1, h2, h3, h4, h5, h6, h7, h8⟩ := hrest
    refine ⟨?_, h2, h3, h4, h5, h6, h7, h8⟩
    rw [h1]; simp only [List.length_cons]; omega


/-! ## C1: press classification by hold length -/

/-- C1. From the reset press state, with `LONG_PRESS_TICKS = 700` and no idle
timeout during the gesture: a hold of `LONG_PRESS_TICKS - 1` pressed passes
followed by a release calls `incrementSleepClock` exactly once, never writes
`poweredOn = false` and never calls `powerDown`; a hold of `LONG_PRESS_TICKS`
pressed passes leaves `longPress` unset and `poweredOn` unwritten on the first
`LONG_PRESS_TICKS - 1` passes, sets `longPress` and writes `poweredOn = false`
exactly once on the last pressed pass, and the following release adds no write
and no call of `incrementSleepClock`. -/
theorem press_classification_by_hold_length (cfg : Config) (s : State)
    (held : List LoopInput) (rel : LoopInput)
    (hT : cfg.LONG_PRESS_TICKS = 700)
    (hcount : s.buttonHoldCount = 0) (hlong : s.longPress = false)
    (hign : s.ignorePress = false)
    (hheld : ∀ i ∈ held, i.pressed = true) (hrel : rel.pressed = false)
    (hno : noIdleTimeout cfg s (held ++ [rel]) = true) :
    (held.length = cfg.LONG_PRESS_TICKS - 1 →
      incrementCalls (runLoop cfg s (held ++ [rel])) = incrementCalls s + 1 ∧
      powerOffWrites (runLoop cfg s (held ++ [rel])) = powerOffWrites s ∧
      powerDownCalls (runLoop cfg s (held ++ [rel])) = powerDownCalls s ∧
      (runLoop cfg s (held ++ [rel])).poweredOn = true) ∧
    (held.length = cfg.LONG_PRESS_TICKS →
      (runLoop cfg s (held.take (cfg.LONG_PRESS_TICKS - 1))).longPress = false ∧
      powerOffWrites (runLoop cfg s (held.take (cfg.LONG_PRESS_TICKS - 1))) =
        powerOffWrites s ∧
      (runLoop cfg s held).longPress = true ∧
      (runLoop cfg s held).poweredOn = false ∧
      powerOffWrites (runLoop cfg s held) = powerOffWrites s + 1 ∧
      powerOffWrites (runLoop cfg s (held ++ [rel])) = powerOffWrites s + 1 ∧
      incrementCalls (runLoop cfg s (held ++ [rel])) = incrementCalls s) := by
  rw [noIdleTimeout_append, Bool.and_eq_true] at hno
  obtain ⟨hnoHeld, hnoRel⟩ := hno
  simp only [noIdleTimeout, Bool.and_true, Bool.not_eq_true'] at hnoRel
  constructor
  · intro hlen
    obtain ⟨h1, h2, h3, -, -, h6, h7, h8⟩ :=
      runLoop_held_below cfg held s hheld hnoHeld hlong (by omega) (by omega)
    have hsp : isShortPress (runLoop cfg s held) rel = true := by
      simp [isShortPress, hrel, h1, h2, h3, hign]; omega
    rw [runLoop_append, runLoop_cons, runLoop_nil,
      loop_released_quiet cfg _ rel hrel hnoRel]
    simp only [hsp, if_true, incrementCalls, powerOffWrites, powerDownCalls,
      List.count_append, incrementEvents_count_call, incrementEvents_count_off,
      incrementEvents_count_powerDown] at h6 h7 h8 ⊢
    simp [h6, h7, h8, BRIGHTNESS]
  · intro hlen
    have hsplit : held.take (cfg.LONG_PRESS_TICKS - 1) ++ held.drop (cfg.LONG_PRESS_TICKS - 1)
        = held := List.take_append_drop _ _
    have hdl : (held.drop (cfg.LONG_PRESS_TICKS - 1)).length = 1 := by
      rw [List.length_drop]; omega
    obtain ⟨last, hlast⟩ := List.length_eq_one.mp hdl
    have htl : (held.take (cfg.LONG_PRESS_TICKS - 1)).length = cfg.LONG_PRESS_TICKS - 1 := by
      rw [List.length_take]; omega
    have hlastp : last.pressed = true := by
      apply hheld
      rw [← hsplit, hlast]; simp
    have hnoSplit := hnoHeld
    rw [← hsplit, noIdleTimeout_append, Bool.and_eq_true, hlast] at hnoSplit
    obtain ⟨hnoInit, hnoLast⟩ := hnoSplit
    simp only [noIdleTimeout, Bool.and_true, Bool.not_eq_true'] at hnoLast
    obtain ⟨h1, h2, -, -, -, h6, h7, -⟩ :=
      runLoop_held_below cfg (held.take (cfg.LONG_PRESS_TICKS - 1)) s
        (fun i hi => hheld i (List.mem_of_mem_take hi)) hnoInit hlong (by omega) (by omega)
    have hrun : runLoop cfg s held =
        loop cfg (runLoop cfg s (held.take (cfg.LONG_PRESS_TICKS - 1))) last := by
      conv_lhs => rw [← hsplit, hlast]
      rw [runLoop_append, runLoop_cons, runLoop_nil]
    have heng := loop_pressed_engage cfg _ last hlastp hnoLast h2 (by omega) (by omega)
    rw [← hrun] at heng
    have e1 : (runLoop cfg s held).longPress = true := by rw [heng]
    have e2 : (runLoop cfg s held).poweredOn = false := by rw [heng]
    have e3 : powerOffWrites (runLoop cfg s held) = powerOffWrites s + 1 := by
      rw [heng, ← h7]
      simp [powerOffWrites, List.count_append, powerDownEvents_count_off, BRIGHTNESS]
    have e4 : incrementCalls (runLoop cfg s held) = incrementCalls s := by
      rw [heng, ← h6]
      simp [incrementCalls, List.count_append, powerDownEvents_count_call, BRIGHTNESS]
    have hnsp : isShortPress (runLoop cfg s held) rel = false := by
      simp [isShortPress, e1]
    refine ⟨h2, h7, e1, e2, e3, ?_, ?_⟩
    · rw [runLoop_append, runLoop_cons, runLoop_nil,
        loop_released_quiet cfg _ rel hrel hnoRel, ← e3]
      simp [hnsp, powerOffWrites, List.count_append, BRIGHTNESS]
    · rw [runLoop_append, runLoop_cons, runLoop_nil,
        loop_released_quiet cfg _ rel hrel hnoRel, ← e4]
      simp [hnsp, incrementCalls, List.count_append, BRIGHTNESS]

set_option maxRecDepth 100000 in
theorem press_classification_by_hold_length_witness :
    (incrementCalls
        (runLoop sourceConfig bootedState (List.replicate 699 heldSample ++ [releasedSample])) =
      incrementCalls bootedState + 1 ∧
     powerOffWrites
        (runLoop sourceConfig bootedState (List.replicate 699 heldSample ++ [releasedSample])) =
      powerOffWrites bootedState) ∧
    ((runLoop sourceConfig bootedState (List.replicate 700 heldSample)).longPress = true ∧
     powerOffWrites
        (runLoop sourceConfig bootedState (List.replicate 700 heldSample ++ [releasedSample])) =
      powerOffWrites bootedState + 1 ∧
     incrementCalls
        (runLoop sourceConfig bootedState (List.replicate 700 heldSample ++ [releasedSample])) =
      incrementCalls bootedState) := by
  have hp : ∀ n, ∀ i ∈ List.replicate n heldSample, i.pressed = true :=
    fun n i hi => by rw [List.eq_of_mem_replicate hi]; rfl
  have hshort := (press_classification_by_hold_length sourceConfig bootedState
    (List.replicate 699 heldSample) releasedSample rfl rfl rfl rfl (hp 699) rfl
    (by decide)).1 (by simp [sourceConfig])
  have hlong := (press_classification_by_hold_length sourceConfig bootedState
    (List.replicate 700 heldSample) releasedSample rfl rfl rfl rfl (hp 700) rfl
    (by decide)).2 (by simp [sourceConfig])
  exact ⟨⟨hshort.1, hshort.2.1⟩, hlong.2.2.1, hlong.2.2.2.2.2.1, hlong.2.2.2.2.2.2⟩

/-! ## C2: the increment wraps past the maximum -/

/-- The increment on the domain, when the maximum leaves room below 255. -/
theorem nextSleepHours_of_mem (cfg : Config) (d : Nat) (hmax : cfg.maxSleepHours ≤ 254)
    (hd : d ≤ cfg.maxSleepHours) :
    nextSleepHours cfg d = if d < cfg.maxSleepHours then d + 1 else 1 := by
  have hm : (d + 1) % 256 = d + 1 := Nat.mod_eq_of_lt (by omega)
  simp only [nextSleepHours, hm]
  split <;> split <;> omega

/-- C2. With `maxSleepHours = 4` and `sleepHours = d` in `[1, 4]`,
`incrementSleepClock` leaves `sleepHours = d + 1` when `d < 4` and `1` when
`d = 4`; from `sleepHours = 1`, four consecutive calls yield `2, 3, 4, 1`. -/
theorem increment_wraps_at_max (cfg : Config) (s : State)
    (hmax : cfg.maxSleepHours = 4) (h1 : 1 ≤ s.sleepHours) (h4 : s.sleepHours ≤ 4) :
    (incrementSleepClock cfg s).sleepHours =
        (if s.sleepHours < 4 then s.sleepHours + 1 else 1) ∧
    (s.sleepHours = 1 →
      (incrementSleepClock cfg s).sleepHours = 2 ∧
      (incrementSleepClock cfg (incrementSleepClock cfg s)).sleepHours = 3 ∧
      (incrementSleepClock cfg
        (incrementSleepClock cfg (incrementSleepClock cfg s))).sleepHours = 4 ∧
      (incrementSleepClock cfg (incrementSleepClock cfg
        (incrementSleepClock cfg (incrementSleepClock cfg s)))).sleepHours = 1) := by
  constructor
  · rw [incrementSleepClock_eq]
    simp only
    rw [nextSleepHours_of_mem cfg _ (by omega) (by omega), hmax]
  · intro h
    simp only [incrementSleepClock_eq, h]
    simp [nextSleepHours, hmax]

theorem increment_wraps_at_max_witness :
    (incrementSleepClock sourceConfig { bootedState with sleepHours := 4 }).sleepHours = 1 ∧
    (incrementSleepClock sourceConfig (incrementSleepClock sourceConfig
      (incrementSleepClock sourceConfig
        (incrementSleepClock sourceConfig bootedState)))).sleepHours = 1 :=
  ⟨(increment_wraps_at_max sourceConfig { bootedState with sleepHours := 4 } rfl
      (by decide) (by decide)).1,
   ((increment_wraps_at_max sourceConfig bootedState rfl (by decide) (by decide)).2
      (by decide)).2.2.2⟩

/-! ## C3, C4: the persisted preference -/

theorem initSleepHours_eq (cfg : Config) (s : State) :
    initSleepHours cfg s =
      { s with
          sleepHours := if s.eeprom > cfg.maxSleepHours ∨ s.eeprom < 1
            then cfg.defaultSleepHours else s.eeprom,
          eeprom := if s.eeprom > cfg.maxSleepHours ∨ s.eeprom < 1
            then cfg.defaultSleepHours else s.eeprom,
          trace := s.trace ++ [Event.eepromWrite EEPROM_ADDR_SLEEP
            (if s.eeprom > cfg.maxSleepHours ∨ s.eeprom < 1
              then cfg.defaultSleepHours else s.eeprom)] } := by
  by_cases h : s.eeprom > cfg.maxSleepHours ∨ s.eeprom < 1
  · have h' : (decide (s.eeprom > cfg.maxSleepHours) || decide (s.eeprom < 1)) = true := by
      simpa using h
    simp only [initSleepHours, writeSleepHours, emit, h, h', ↓reduceIte]
  · have h' : (decide (s.eeprom > cfg.maxSleepHours) || decide (s.eeprom < 1)) = false := by
      simpa using h
    simp only [initSleepHours, writeSleepHours, emit, h, h', ↓reduceIte, Bool.false_eq_true]

/-- C3. When the stored byte is `0` or exceeds `maxSleepHours`,
`initSleepHours` sets `sleepHours` to `defaultSleepHours` and writes that value
to the EEPROM slot; `initSleepHours` run again on any state over the resulting
storage (the same run, or the next boot) again yields `defaultSleepHours`. -/
theorem init_self_heals (cfg : Config) (s : State)
    (hb : s.eeprom = 0 ∨ s.eeprom > cfg.maxSleepHours) :
    (initSleepHours cfg s).sleepHours = cfg.defaultSleepHours ∧
    (initSleepHours cfg s).eeprom = cfg.defaultSleepHours ∧
    (initSleepHours cfg s).trace =
      s.trace ++ [Event.eepromWrite EEPROM_ADDR_SLEEP cfg.defaultSleepHours] ∧
    (∀ s2 : State, s2.eeprom = (initSleepHours cfg s).eeprom →
      (initSleepHours cfg s2).sleepHours = cfg.defaultSleepHours) := by
  have hc : s.eeprom > cfg.maxSleepHours ∨ s.eeprom < 1 := by omega
  have he : (initSleepHours cfg s).eeprom = cfg.defaultSleepHours := by
    rw [initSleepHours_eq]; simp only [if_pos hc]
  refine ⟨?_, he, ?_, ?_⟩
  · rw [initSleepHours_eq]; simp only [if_pos hc]
  · rw [initSleepHours_eq]; simp only [if_pos hc]
  · intro s2 h2
    rw [he] at h2
    rw [initSleepHours_eq]
    simp only [h2]
    split <;> rfl

theorem init_self_heals_witness :
    (initSleepHours sourceConfig (boot 255)).sleepHours = 1 ∧
    (initSleepHours sourceConfig (boot 255)).eeprom = 1 ∧
    (initSleepHours sourceConfig
      (boot (initSleepHours sourceConfig (boot 255)).eeprom)).sleepHours = 1 := by
  have h := init_self_heals sourceConfig (boot 255) (Or.inr (by decide))
  exact ⟨h.1, h.2.1, h.2.2.2 _ rfl⟩

/-- C4. For `d` in `[1, maxSleepHours]`, after `writeSleepHours` with
`sleepHours = d` the stored byte is `d`, and `initSleepHours` run on any state
over that storage sets `sleepHours = d` and leaves the stored byte equal to
`d`. -/
theorem save_load_round_trip (cfg : Config) (s : State) (d : Nat)
    (hd1 : 1 ≤ d) (hd2 : d ≤ cfg.maxSleepHours) (hs : s.sleepHours = d) :
    (writeSleepHours s).eeprom = d ∧
    (∀ s2 : State, s2.eeprom = (writeSleepHours s).eeprom →
      (initSleepHours cfg s2).sleepHours = d ∧ (initSleepHours cfg s2).eeprom = d) := by
  have hw : (writeSleepHours s).eeprom = d := by simp [writeSleepHours, emit, hs]
  refine ⟨hw, ?_⟩
  intro s2 h2
  rw [hw] at h2
  have hc : ¬ (s2.eeprom > cfg.maxSleepHours ∨ s2.eeprom < 1) := by omega
  rw [initSleepHours_eq]
  simp only [if_neg hc]
  exact ⟨h2, h2⟩

theorem save_load_round_trip_witness :
    (writeSleepHours { bootedState with sleepHours := 3 }).eeprom = 3 ∧
    (initSleepHours sourceConfig
      (boot (writeSleepHours { bootedState with sleepHours := 3 }).eeprom)).sleepHours = 3 ∧
    (initSleepHours sourceConfig
      (boot (writeSleepHours { bootedState with sleepHours := 3 }).eeprom)).eeprom = 3 := by
  have h := save_load_round_trip sourceConfig { bootedState with sleepHours := 3 } 3
    (by decide) (by decide) rfl
  exact ⟨h.1, h.2 _ rfl⟩

/-! ## C5, C6: the idle timer -/

/-- The interval of line 94 does not overflow for any 8-bit `sleepHours`. -/
theorem sleepInterval_eq (s : State) (h : s.sleepHours ≤ 255) :
    sleepInterval s = s.sleepHours * MS_PER_HOUR := by
  simp only [sleepInterval, ULONG_MOD, MS_PER_HOUR]
  omega

/-- The wrap-around subtraction of line 101 recovers the true elapsed time. -/
theorem elapsedMillis_add (s : State) (e : Nat) (he : e < ULONG_MOD) :
    elapsedMillis (s.previousMillis + e) s = e := by
  simp only [elapsedMillis, ULONG_MOD] at *
  omega

theorem checkSleepTimer_of_lt (now nowReset : Nat) (s : State)
    (h : elapsedMillis now s < sleepInterval s) :
    (checkSleepTimer now nowReset s).poweredOn = true ∧
    (checkSleepTimer now nowReset s).previousMillis = s.previousMillis := by
  have he : timerExpired now s = false := by simp [timerExpired, h]
  rw [checkSleepTimer_eq]; simp [he]

theorem checkSleepTimer_of_ge (now nowReset : Nat) (s : State)
    (h : sleepInterval s ≤ elapsedMillis now s) :
    (checkSleepTimer now nowReset s).poweredOn = false ∧
    (checkSleepTimer now nowReset s).previousMillis = nowReset % ULONG_MOD := by
  have he : timerExpired now s = true := by simp [timerExpired, h]
  rw [checkSleepTimer_eq]; simp [he]

/-- C5. With `sleepHours = h` in `[1, maxSleepHours]` and baseline
`previousMillis = t0`: `checkSleepTimer` at clock value `t0 + h * 3600000 - 1`
(as a 32-bit value) leaves `poweredOn = true` and the baseline untouched; at
clock value `t0 + h * 3600000` it leaves `poweredOn = false` and sets the
baseline to the value `millis()` returns in `resetTimer`, which is the current
clock value when both reads agree. In general an elapsed time below the
interval leaves the baseline untouched, and one at or above it resets it. -/
theorem idle_timer_boundary (cfg : Config) (s : State)
    (hmax : cfg.maxSleepHours ≤ 255)
    (h1 : 1 ≤ s.sleepHours) (h2 : s.sleepHours ≤ cfg.maxSleepHours) :
    (∀ nowReset : Nat,
      (checkSleepTimer ((s.previousMillis + s.sleepHours * MS_PER_HOUR - 1) % ULONG_MOD)
          nowReset s).poweredOn = true ∧
      (checkSleepTimer ((s.previousMillis + s.sleepHours * MS_PER_HOUR - 1) % ULONG_MOD)
          nowReset s).previousMillis = s.previousMillis) ∧
    (∀ nowReset : Nat,
      (checkSleepTimer ((s.previousMillis + s.sleepHours * MS_PER_HOUR) % ULONG_MOD)
          nowReset s).poweredOn = false ∧
      (checkSleepTimer ((s.previousMillis + s.sleepHours * MS_PER_HOUR) % ULONG_MOD)
          nowReset s).previousMillis = nowReset % ULONG_MOD) ∧
    (checkSleepTimer ((s.previousMillis + s.sleepHours * MS_PER_HOUR) % ULONG_MOD)
        ((s.previousMillis + s.sleepHours * MS_PER_HOUR) % ULONG_MOD) s).previousMillis =
      (s.previousMillis + s.sleepHours * MS_PER_HOUR) % ULONG_MOD ∧
    (∀ now nowReset : Nat, elapsedMillis now s < sleepInterval s →
      (checkSleepTimer now nowReset s).poweredOn = true ∧
      (checkSleepTimer now nowReset s).previousMillis = s.previousMillis) ∧
    (∀ now nowReset : Nat, sleepInterval s ≤ elapsedMillis now s →
      (checkSleepTimer now nowReset s).poweredOn = false ∧
      (checkSleepTimer now nowReset s).previousMillis = nowReset % ULONG_MOD) := by
  have hi : sleepInterval s = s.sleepHours * MS_PER_HOUR := sleepInterval_eq s (by omega)
  have hlo : elapsedMillis ((s.previousMillis + s.sleepHours * MS_PER_HOUR - 1) % ULONG_MOD) s <
      sleepInterval s := by
    rw [hi]
    simp only [elapsedMillis, ULONG_MOD, MS_PER_HOUR]
    omega
  have hhi : sleepInterval s ≤
      elapsedMillis ((s.previousMillis + s.sleepHours * MS_PER_HOUR) % ULONG_MOD) s := by
    rw [hi]
    simp only [elapsedMillis, ULONG_MOD, MS_PER_HOUR]
    omega
  refine ⟨fun r => checkSleepTimer_of_lt _ r s hlo, fun r => checkSleepTimer_of_ge _ r s hhi,
    ?_, fun now r h => checkSleepTimer_of_lt now r s h,
    fun now r h => checkSleepTimer_of_ge now r s h⟩
  rw [(checkSleepTimer_of_ge _ _ s hhi).2]
  exact Nat.mod_mod _ _

theorem idle_timer_boundary_witness :
    (checkSleepTimer ((5000 + 2 * MS_PER_HOUR - 1) % ULONG_MOD) 7205000
        { bootedState with sleepHours := 2, previousMillis := 5000 }).poweredOn = true ∧
    (checkSleepTimer ((5000 + 2 * MS_PER_HOUR) % ULONG_MOD) 7205000
        { bootedState with sleepHours := 2, previousMillis := 5000 }).poweredOn = false ∧
    (checkSleepTimer ((5000 + 2 * MS_PER_HOUR) % ULONG_MOD) 7205000
        { bootedState with sleepHours := 2, previousMillis := 5000 }).previousMillis =
      7205000 % ULONG_MOD := by
  have h := idle_timer_boundary sourceConfig
    { bootedState with sleepHours := 2, previousMillis := 5000 }
    (by decide) (by decide) (by decide)
  exact ⟨(h.1 7205000).1, (h.2.1 7205000).1, (h.2.1 7205000).2⟩

/-- C6. With 32-bit `millis()` and `previousMillis = t0`, for every true
elapsed time `e < 2^32` and every `sleepHours` up to `maxSleepHours` (so in
particular every value in `[1, maxSleepHours]`), `checkSleepTimer` at clock
value `(t0 + e) mod 2^32` reports expired
(`poweredOn = false`) exactly when `e ≥ sleepHours * 3600000`, whether or not
the clock has wrapped below `t0`; and the product `sleepHours * 3600000` stays
below `2^32`, so the interval of line 94 is that product. -/
theorem idle_timer_wraparound_safe (cfg : Config) (s : State) (e nowReset : Nat)
    (hmax : cfg.maxSleepHours ≤ 255) (h2 : s.sleepHours ≤ cfg.maxSleepHours)
    (ht0 : s.previousMillis < ULONG_MOD) (he : e < ULONG_MOD) :
    s.sleepHours * MS_PER_HOUR < ULONG_MOD ∧
    sleepInterval s = s.sleepHours * MS_PER_HOUR ∧
    (timerExpired ((s.previousMillis + e) % ULONG_MOD) s = true ↔
      e ≥ s.sleepHours * MS_PER_HOUR) ∧
    ((checkSleepTimer ((s.previousMillis + e) % ULONG_MOD) nowReset s).poweredOn = false ↔
      e ≥ s.sleepHours * MS_PER_HOUR) := by
  have hi : sleepInterval s = s.sleepHours * MS_PER_HOUR := sleepInterval_eq s (by omega)
  have hel : elapsedMillis ((s.previousMillis + e) % ULONG_MOD) s = e := by
    simp only [elapsedMillis, ULONG_MOD] at *
    omega
  have hexp : timerExpired ((s.previousMillis + e) % ULONG_MOD) s = true ↔
      e ≥ s.sleepHours * MS_PER_HOUR := by
    simp [timerExpired, hel, hi]
  refine ⟨?_, hi, hexp, ?_⟩
  · simp only [ULONG_MOD, MS_PER_HOUR]; omega
  · rw [checkSleepTimer_eq, ← hexp]
    simp

theorem idle_timer_wraparound_safe_witness :
    (4294967000 + 3600000) % ULONG_MOD < 4294967000 ∧
    (checkSleepTimer ((4294967000 + 3600000) % ULONG_MOD) 0
        { bootedState with previousMillis := 4294967000 }).poweredOn = false ∧
    ¬ (checkSleepTimer ((4294967000 + 3599999) % ULONG_MOD) 0
        { bootedState with previousMillis := 4294967000 }).poweredOn = false := by
  have ha := idle_timer_wraparound_safe sourceConfig
    { bootedState with previousMillis := 4294967000 } 3600000 0
    (by decide) (by decide) (by decide) (by decide)
  have hb := idle_timer_wraparound_safe sourceConfig
    { bootedState with previousMillis := 4294967000 } 3599999 0
    (by decide) (by decide) (by decide) (by decide)
  exact ⟨by decide, ha.2.2.2.mpr (by decide), fun h => absurd (hb.2.2.2.mp h) (by decide)⟩

/-! ## What one pass does to the preference and to the suppression flag -/

theorem loop_sleepHours (cfg : Config) (s : State) (inp : LoopInput) :
    (loop cfg s inp).sleepHours =
      if isShortPress s inp then nextSleepHours cfg s.sleepHours else s.sleepHours := by
  obtain ⟨mc, mr, p⟩ := inp
  cases p
  · rw [loop_released_eq]
  · rw [loop_pressed_eq]; simp [isShortPress]

theorem loop_eeprom (cfg : Config) (s : State) (inp : LoopInput) :
    (loop cfg s inp).eeprom =
      if isShortPress s inp then nextSleepHours cfg s.sleepHours else s.eeprom := by
  obtain ⟨mc, mr, p⟩ := inp
  cases p
  · rw [loop_released_eq]
  · rw [loop_pressed_eq]; simp [isShortPress]

theorem loop_incrementCalls (cfg : Config) (s : State) (inp : LoopInput) :
    incrementCalls (loop cfg s inp) =
      incrementCalls s + (if isShortPress s inp then 1 else 0) := by
  obtain ⟨mc, mr, p⟩ := inp
  cases p
  · rw [loop_released_eq]
    cases hsp : isShortPress s ⟨mc, mr, false⟩ <;> cases he : timerExpired mc s <;>
      simp [incrementCalls, List.count_append, incrementEvents_count_call,
        powerDownEvents_count_call, BRIGHTNESS]
  · rw [loop_pressed_eq]
    have hsp : isShortPress s ⟨mc, mr, true⟩ = false := by simp [isShortPress]
    rw [hsp]
    simp only [incrementCalls, List.count_append]
    split <;> split <;>
      simp [powerDownEvents_count_call, BRIGHTNESS]

theorem loop_pressed_ignorePress (cfg : Config) (s : State) (inp : LoopInput)
    (hp : inp.pressed = true) (hi : s.ignorePress = true) :
    (loop cfg s inp).ignorePress = true := by
  obtain ⟨mc, mr, p⟩ := inp
  simp only at hp
  subst hp
  rw [loop_pressed_eq]
  simp [hi]

theorem runLoop_pressed_ignorePress (cfg : Config) (held : List LoopInput) (s : State)
    (hp : ∀ i ∈ held, i.pressed = true) (hi : s.ignorePress = true) :
    (runLoop cfg s held).ignorePress = true := by
  induction held generalizing s with
  | nil => simpa [runLoop_nil] using hi
  | cons inp rest ih =>
    rw [runLoop_cons]
    exact ih _ (fun i h => hp i (List.mem_cons_of_mem _ h))
      (loop_pressed_ignorePress cfg s inp (hp inp (List.mem_cons_self _ _)) hi)

theorem powerDownEvents_count_wake :
    powerDownEvents.count Event.callWakeUp = 1 := by decide

/-! ## C7: suppression across sleep and wake -/

/-- C7. Let a pass sample the button pressed and go to sleep, by idle timeout
or by engaging the long press. Then `powerDown` and the handler `wakeUp` run
once in that pass and it ends with `ignorePress` set; and after any number of
further pressed passes, the next pass `rel` (the one that samples the
release) is not a short press: it does not call `incrementSleepClock` and
leaves `sleepHours` and the stored byte unchanged. -/
theorem suppression_across_sleep_wake (cfg : Config) (s : State)
    (sleepPass : LoopInput) (after : List LoopInput) (rel : LoopInput)
    (hheld : sleepPass.pressed = true)
    (hsleep : timerExpired sleepPass.millisCheck s = true ∨
      (s.longPress = false ∧ (s.buttonHoldCount + 1) % 65536 ≥ cfg.LONG_PRESS_TICKS))
    (hafter : ∀ i ∈ after, i.pressed = true) :
    powerDownCalls (loop cfg s sleepPass) = powerDownCalls s + 1 ∧
    wakeUpCalls (loop cfg s sleepPass) = wakeUpCalls s + 1 ∧
    (loop cfg s sleepPass).ignorePress = true ∧
    isShortPress (runLoop cfg (loop cfg s sleepPass) after) rel = false ∧
    incrementCalls (loop cfg (runLoop cfg (loop cfg s sleepPass) after) rel) =
      incrementCalls (runLoop cfg (loop cfg s sleepPass) after) ∧
    (loop cfg (runLoop cfg (loop cfg s sleepPass) after) rel).sleepHours =
      (runLoop cfg (loop cfg s sleepPass) after).sleepHours ∧
    (loop cfg (runLoop cfg (loop cfg s sleepPass) after) rel).eeprom =
      (runLoop cfg (loop cfg s sleepPass) after).eeprom := by
  have hoff : (timerExpired sleepPass.millisCheck s ||
      (!s.longPress && decide ((s.buttonHoldCount + 1) % 65536 ≥ cfg.LONG_PRESS_TICKS))) =
      true := by
    rcases hsleep with h | ⟨h1, h2⟩
    · simp [h]
    · simp [h1, h2]
  have hign : (loop cfg s sleepPass).ignorePress = true := by
    obtain ⟨mc, mr, p⟩ := sleepPass
    simp only at hheld hoff
    subst hheld
    rw [loop_pressed_eq]
    simp only [Bool.or_assoc, hoff, Bool.or_true]
  have hw := runLoop_pressed_ignorePress cfg after _ hafter hign
  have hns : isShortPress (runLoop cfg (loop cfg s sleepPass) after) rel = false := by
    simp [isShortPress, hw]
  refine ⟨?_, ?_, hign, hns, ?_, ?_, ?_⟩
  · obtain ⟨mc, mr, p⟩ := sleepPass
    simp only at hheld hoff
    subst hheld
    rw [loop_pressed_eq]
    simp only [powerDownCalls, List.count_append, hoff, if_true, powerDownEvents_count_powerDown]
    split <;> simp [BRIGHTNESS]
  · obtain ⟨mc, mr, p⟩ := sleepPass
    simp only at hheld hoff
    subst hheld
    rw [loop_pressed_eq]
    simp only [wakeUpCalls, List.count_append, hoff, if_true, powerDownEvents_count_wake]
    split <;> simp [BRIGHTNESS]
  · rw [loop_incrementCalls, hns]; simp
  · rw [loop_sleepHours, hns]; simp
  · rw [loop_eeprom, hns]; simp

theorem suppression_across_sleep_wake_witness :
    timerExpired 3600000 bootedState = true ∧
    (loop sourceConfig bootedState { heldSample with millisCheck := 3600000 }).ignorePress
      = true ∧
    (loop sourceConfig
      (runLoop sourceConfig
        (loop sourceConfig bootedState { heldSample with millisCheck := 3600000 })
        [heldSample, heldSample, heldSample]) releasedSample).sleepHours =
      (runLoop sourceConfig
        (loop sourceConfig bootedState { heldSample with millisCheck := 3600000 })
        [heldSample, heldSample, heldSample]).sleepHours := by
  have h := suppression_across_sleep_wake sourceConfig bootedState
    { heldSample with millisCheck := 3600000 } [heldSample, heldSample, heldSample]
    releasedSample rfl (Or.inl (by decide)) (by decide)
  exact ⟨by decide, h.2.2.1, h.2.2.2.2.2.1⟩

/-! ## C8: the confirmation flash -/

theorem blinkTrace_eq_flatten (n : Nat) :
    blinkTrace n = (List.replicate n blinkEvents).flatten := by
  induction n with
  | zero => rfl
  | succ n ih => rw [blinkTrace, ih, List.replicate_succ, List.flatten_cons]

/-- C8. For `sleepHours = d` up to `maxSleepHours` (so in particular for `d`
in `[1, maxSleepHours]`), with `maxSleepHours` at most 254 as in the sketch,
a pass that completes a short press leaves `sleepHours = k` with `k = d + 1`, or `1` after the wrap,
and its effects are, in order: the timer write and `updateColours`, then
`incrementSleepClock` (the EEPROM write of `k`, then `flashLeds(k)`), then the
power stage and the frame. `flashLeds(k)` from any state appends a fade-out,
a pause, `k` blinks, a pause and a fade-in, and leaves the brightness at
`BRIGHTNESS`; the `k` blinks are `k` copies of an on-phase at `BRIGHTNESS`
followed by an off-phase at `0`, so exactly `k` frames are shown at each. -/
theorem confirmation_blink_count (cfg : Config) (s : State) (inp : LoopInput)
    (hmax : cfg.maxSleepHours ≤ 254) (h2 : s.sleepHours ≤ cfg.maxSleepHours)
    (hsp : isShortPress s inp = true) :
    (loop cfg s inp).sleepHours =
      (if s.sleepHours < cfg.maxSleepHours then s.sleepHours + 1 else 1) ∧
    (loop cfg s inp).trace =
      s.trace ++
        [Event.poweredOnWrite (!timerExpired inp.millisCheck s), Event.updateColours] ++
        (Event.callIncrementSleepClock ::
          Event.eepromWrite EEPROM_ADDR_SLEEP (loop cfg s inp).sleepHours ::
          flashEvents (loop cfg s inp).sleepHours) ++
        (if timerExpired inp.millisCheck s then powerDownEvents
          else [Event.setBrightness BRIGHTNESS]) ++
        [Event.ledShow BRIGHTNESS] ∧
    (∀ (k : Nat) (t : State),
      (flashLeds k t).trace =
        t.trace ++ (Event.callFlashLeds k :: fadeOutEvents ++ [Event.delay 500] ++
          (List.replicate k blinkEvents).flatten ++ [Event.delay 300] ++ fadeInEvents) ∧
      (flashLeds k t).brightness = BRIGHTNESS ∧
      ((List.replicate k blinkEvents).flatten).count (Event.ledShow BRIGHTNESS) = k ∧
      ((List.replicate k blinkEvents).flatten).count (Event.ledShow 0) = k ∧
      (flashEvents k).count (Event.ledShow BRIGHTNESS) = k ∧
      (flashEvents k).count (Event.ledShow 0) = k) := by
  have hk : (loop cfg s inp).sleepHours = nextSleepHours cfg s.sleepHours := by
    rw [loop_sleepHours, hsp]; rfl
  refine ⟨?_, ?_, ?_⟩
  · rw [hk, nextSleepHours_of_mem cfg _ hmax h2]
  · rw [hk]
    obtain ⟨mc, mr, p⟩ := inp
    have hp : p = false := by
      cases p
      · rfl
      · simp [isShortPress] at hsp
    subst hp
    rw [loop_released_eq]
    simp [hsp, incrementEvents]
  · intro k t
    have hon : blinkEvents.count (Event.ledShow BRIGHTNESS) = 1 := by decide
    have hoff : blinkEvents.count (Event.ledShow 0) = 1 := by decide
    have c1 : fadeOutEvents.count (Event.ledShow BRIGHTNESS) = 0 := by decide
    have c2 : fadeInEvents.count (Event.ledShow BRIGHTNESS) = 0 := by decide
    have c3 : fadeOutEvents.count (Event.ledShow 0) = 0 := by decide
    have c4 : fadeInEvents.count (Event.ledShow 0) = 0 := by decide
    refine ⟨?_, ?_, ?_, ?_, ?_, ?_⟩
    · rw [flashLeds_eq, ← blinkTrace_eq_flatten]; rfl
    · rw [flashLeds_eq]
    · rw [← blinkTrace_eq_flatten, count_blinkTrace, hon, Nat.mul_one]
    · rw [← blinkTrace_eq_flatten, count_blinkTrace, hoff, Nat.mul_one]
    · rw [count_flashEvents, hon, c1, c2]; simp
    · rw [count_flashEvents, hoff, c3, c4]; simp

theorem confirmation_blink_count_witness :
    isShortPress { bootedState with sleepHours := 4, buttonHoldCount := 5 } releasedSample
      = true ∧
    (loop sourceConfig { bootedState with sleepHours := 4, buttonHoldCount := 5 }
      releasedSample).sleepHours = 1 ∧
    (flashLeds 3 bootedState).brightness = BRIGHTNESS ∧
    (flashEvents 3).count (Event.ledShow BRIGHTNESS) = 3 := by
  have h := confirmation_blink_count sourceConfig
    { bootedState with sleepHours := 4, buttonHoldCount := 5 } releasedSample
    (by decide) (by decide) (by decide)
  exact ⟨by decide, h.1, (h.2.2 3 bootedState).2.1, (h.2.2 3 bootedState).2.2.2.2.1⟩

/-! ## C9, C10: invariants of the preference -/

theorem nextSleepHours_mem (cfg : Config) (d : Nat)
    (hmax1 : 1 ≤ cfg.maxSleepHours) (hmax : cfg.maxSleepHours ≤ 254)
    (hd : d ≤ cfg.maxSleepHours) :
    1 ≤ nextSleepHours cfg d ∧ nextSleepHours cfg d ≤ cfg.maxSleepHours := by
  rw [nextSleepHours_of_mem cfg d hmax hd]
  split <;> omega

theorem initSleepHours_mem (cfg : Config) (s : State)
    (hd1 : 1 ≤ cfg.defaultSleepHours) (hd2 : cfg.defaultSleepHours ≤ cfg.maxSleepHours) :
    1 ≤ (initSleepHours cfg s).sleepHours ∧
    (initSleepHours cfg s).sleepHours ≤ cfg.maxSleepHours := by
  rw [initSleepHours_eq]
  simp only
  split <;> omega

theorem setup_sleepHours (cfg : Config) (s : State) :
    (setup cfg s).sleepHours = (initSleepHours cfg s).sleepHours ∧
    (setup cfg s).eeprom = (initSleepHours cfg s).eeprom := by
  simp [setup, writeLedBuiltin, setBrightness, emit]

theorem loop_sleepHours_mem (cfg : Config) (s : State) (inp : LoopInput)
    (hmax1 : 1 ≤ cfg.maxSleepHours) (hmax : cfg.maxSleepHours ≤ 254)
    (h : 1 ≤ s.sleepHours ∧ s.sleepHours ≤ cfg.maxSleepHours) :
    1 ≤ (loop cfg s inp).sleepHours ∧ (loop cfg s inp).sleepHours ≤ cfg.maxSleepHours := by
  rw [loop_sleepHours]
  split
  · exact nextSleepHours_mem cfg _ hmax1 hmax h.2
  · exact h

theorem runLoop_sleepHours_mem (cfg : Config) (inputs : List LoopInput) (s : State)
    (hmax1 : 1 ≤ cfg.maxSleepHours) (hmax : cfg.maxSleepHours ≤ 254)
    (h : 1 ≤ s.sleepHours ∧ s.sleepHours ≤ cfg.maxSleepHours) :
    1 ≤ (runLoop cfg s inputs).sleepHours ∧
    (runLoop cfg s inputs).sleepHours ≤ cfg.maxSleepHours := by
  induction inputs generalizing s with
  | nil => simpa [runLoop_nil] using h
  | cons inp rest ih =>
    rw [runLoop_cons]
    exact ih _ (loop_sleepHours_mem cfg s inp hmax1 hmax h)

/-- C9. With `defaultSleepHours = 1` and `maxSleepHours = 4`, from any state
(so for every initial EEPROM byte), `sleepHours` is in `[1, maxSleepHours]`
after `initSleepHours`, after `setup()`, and after every sequence of passes
through `loop()` that follows, whatever the button samples and clock values. -/
theorem sleepHours_domain_invariant (cfg : Config) (s : State) (inputs : List LoopInput)
    (hdef : cfg.defaultSleepHours = 1) (hmax : cfg.maxSleepHours = 4) :
    (1 ≤ (initSleepHours cfg s).sleepHours ∧
      (initSleepHours cfg s).sleepHours ≤ cfg.maxSleepHours) ∧
    (1 ≤ (setup cfg s).sleepHours ∧ (setup cfg s).sleepHours ≤ cfg.maxSleepHours) ∧
    (1 ≤ (runLoop cfg (setup cfg s) inputs).sleepHours ∧
      (runLoop cfg (setup cfg s) inputs).sleepHours ≤ cfg.maxSleepHours) := by
  have hi := initSleepHours_mem cfg s (by omega) (by omega)
  have hs : 1 ≤ (setup cfg s).sleepHours ∧ (setup cfg s).sleepHours ≤ cfg.maxSleepHours := by
    rw [(setup_sleepHours cfg s).1]; exact hi
  exact ⟨hi, hs, runLoop_sleepHours_mem cfg inputs _ (by omega) (by omega) hs⟩

theorem sleepHours_domain_invariant_witness :
    1 ≤ (runLoop sourceConfig (setup sourceConfig (boot 255))
      [heldSample, releasedSample, heldSample, releasedSample]).sleepHours ∧
    (runLoop sourceConfig (setup sourceConfig (boot 255))
      [heldSample, releasedSample, heldSample, releasedSample]).sleepHours ≤
        sourceConfig.maxSleepHours :=
  (sleepHours_domain_invariant sourceConfig (boot 255)
    [heldSample, releasedSample, heldSample, releasedSample] rfl rfl).2.2

theorem loop_in_sync (cfg : Config) (s : State) (inp : LoopInput)
    (h : s.eeprom = s.sleepHours) : (loop cfg s inp).eeprom = (loop cfg s inp).sleepHours := by
  rw [loop_eeprom, loop_sleepHours, h]

theorem runLoop_in_sync (cfg : Config) (inputs : List LoopInput) (s : State)
    (h : s.eeprom = s.sleepHours) :
    (runLoop cfg s inputs).eeprom = (runLoop cfg s inputs).sleepHours := by
  induction inputs generalizing s with
  | nil => simpa [runLoop_nil] using h
  | cons inp rest ih =>
    rw [runLoop_cons]
    exact ih _ (loop_in_sync cfg s inp h)

/-- C10. After `initSleepHours` (and so after `setup()`) and after every
sequence of passes through `loop()` that follows, the byte in the EEPROM slot
equals `sleepHours`; and `incrementSleepClock` writes the new value to the
slot before `flashLeds` starts: its effects are the call marker, the EEPROM
write of the new `sleepHours`, then the events of `flashLeds`, which begin
with its call marker. -/
theorem persistence_in_sync (cfg : Config) (s : State) (inputs : List LoopInput) :
    (initSleepHours cfg s).eeprom = (initSleepHours cfg s).sleepHours ∧
    (setup cfg s).eeprom = (setup cfg s).sleepHours ∧
    (runLoop cfg (setup cfg s) inputs).eeprom =
      (runLoop cfg (setup cfg s) inputs).sleepHours ∧
    (incrementSleepClock cfg s).eeprom = (incrementSleepClock cfg s).sleepHours ∧
    (incrementSleepClock cfg s).trace =
      s.trace ++ [Event.callIncrementSleepClock,
        Event.eepromWrite EEPROM_ADDR_SLEEP (incrementSleepClock cfg s).sleepHours] ++
        flashEvents (incrementSleepClock cfg s).sleepHours ∧
    (flashEvents (incrementSleepClock cfg s).sleepHours).head? =
      some (Event.callFlashLeds (incrementSleepClock cfg s).sleepHours) := by
  have hi : (initSleepHours cfg s).eeprom = (initSleepHours cfg s).sleepHours := by
    rw [initSleepHours_eq]
  have hs : (setup cfg s).eeprom = (setup cfg s).sleepHours := by
    rw [(setup_sleepHours cfg s).1, (setup_sleepHours cfg s).2]; exact hi
  refine ⟨hi, hs, runLoop_in_sync cfg inputs _ hs, ?_, ?_, ?_⟩
  · rw [incrementSleepClock_eq]
  · rw [incrementSleepClock_eq]; simp [incrementEvents]
  · simp [flashEvents]

/-! ## Events and final registers of one pass, in terms of its triggers -/

theorem loop_eventCount (cfg : Config) (s : State) (inp : LoopInput) (e : Event) :
    eventCount e (loop cfg s inp) =
      eventCount e s +
        [Event.poweredOnWrite (!timerExpired inp.millisCheck s), Event.updateColours].count e +
        (if isShortPress s inp
          then (incrementEvents (nextSleepHours cfg s.sleepHours)).count e else 0) +
        (if longPressEngages cfg s inp then [Event.poweredOnWrite false].count e else 0) +
        (if powerDownTrigger cfg s inp then powerDownEvents.count e
          else [Event.setBrightness BRIGHTNESS].count e) +
        [Event.ledShow BRIGHTNESS].count e := by
  obtain ⟨mc, mr, p⟩ := inp
  cases p
  · rw [loop_released_eq]
    simp only [eventCount, List.count_append, powerDownTrigger, longPressEngages,
      Bool.false_and, Bool.or_false]
    cases isShortPress s ⟨mc, mr, false⟩ <;> cases timerExpired mc s <;> simp
  · rw [loop_pressed_eq]
    have hsp : isShortPress s ⟨mc, mr, true⟩ = false := by simp [isShortPress]
    simp only [eventCount, List.count_append, powerDownTrigger, longPressEngages, hsp,
      Bool.true_and]
    cases (!s.longPress && decide ((s.buttonHoldCount + 1) % 65536 ≥ cfg.LONG_PRESS_TICKS)) <;>
      cases timerExpired mc s <;> simp

theorem loop_poweredOn (cfg : Config) (s : State) (inp : LoopInput) :
    (loop cfg s inp).poweredOn = !powerDownTrigger cfg s inp := by
  obtain ⟨mc, mr, p⟩ := inp
  cases p
  · rw [loop_released_eq]; simp [powerDownTrigger, longPressEngages]
  · rw [loop_pressed_eq]; simp [powerDownTrigger, longPressEngages]

theorem loop_brightness (cfg : Config) (s : State) (inp : LoopInput) :
    (loop cfg s inp).brightness = BRIGHTNESS := by
  obtain ⟨mc, mr, p⟩ := inp
  cases p
  · rw [loop_released_eq]
  · rw [loop_pressed_eq]

theorem loop_previousMillis (cfg : Config) (s : State) (inp : LoopInput) :
    (loop cfg s inp).previousMillis =
      if timerExpired inp.millisCheck s then inp.millisReset % ULONG_MOD
        else s.previousMillis := by
  obtain ⟨mc, mr, p⟩ := inp
  cases p
  · rw [loop_released_eq]
  · rw [loop_pressed_eq]

theorem loop_after_powerDown (cfg : Config) (s : State) (inp : LoopInput)
    (h : powerDownTrigger cfg s inp = true) :
    (loop cfg s inp).ledBuiltin = true ∧ (loop cfg s inp).ignorePress = true := by
  obtain ⟨mc, mr, p⟩ := inp
  cases p
  · rw [loop_released_eq]
    simp only [powerDownTrigger, longPressEngages, Bool.false_and, Bool.or_false] at h
    simp [h]
  · rw [loop_pressed_eq]
    simp only [powerDownTrigger, longPressEngages, Bool.true_and] at h
    simp only [Bool.or_assoc, h, Bool.or_true, and_self]

theorem loop_powerDownCalls (cfg : Config) (s : State) (inp : LoopInput) :
    powerDownCalls (loop cfg s inp) =
      powerDownCalls s + (if powerDownTrigger cfg s inp then 1 else 0) := by
  have h := loop_eventCount cfg s inp Event.callPowerDown
  simp only [eventCount] at h
  rw [powerDownCalls, h, incrementEvents_count_powerDown, powerDownEvents_count_powerDown]
  simp [powerDownCalls, BRIGHTNESS]

theorem powerDownTrigger_iff (cfg : Config) (s : State) (inp : LoopInput) :
    powerDownTrigger cfg s inp = true ↔
      (timerExpired inp.millisCheck s = true ∨
        (inp.pressed = true ∧ s.longPress = false ∧
          (s.buttonHoldCount + 1) % 65536 ≥ cfg.LONG_PRESS_TICKS)) := by
  simp [powerDownTrigger, longPressEngages, and_assoc]

/-! ## C11: the timer baseline when the device goes to sleep -/

set_option maxRecDepth 100000 in
/-- C11, the code at the failing input. With the hold counter at 699 and the
timer not expired at clock value `1000`, a pressed pass engages the long press
and goes to sleep (`powerDown` and `wakeUp` run), yet `previousMillis` keeps
its old value `0` instead of the clock value. -/
theorem baseline_reset_on_sleep_counterexample :
    timerExpired 1000 nearLongPressState = false ∧
    powerDownCalls (loop sourceConfig nearLongPressState
        earlyHeldSample) =
      powerDownCalls nearLongPressState + 1 ∧
    wakeUpCalls (loop sourceConfig nearLongPressState
        earlyHeldSample) =
      wakeUpCalls nearLongPressState + 1 ∧
    (loop sourceConfig nearLongPressState
        earlyHeldSample).previousMillis = 0 ∧
    (loop sourceConfig nearLongPressState
        earlyHeldSample).previousMillis ≠
      1000 % ULONG_MOD := by
  decide

/-- The two ways into sleep side by side, for every state and input: a pass
whose `checkSleepTimer` finds the idle timer expired goes to sleep with
`previousMillis` set to the value `millis()` returns in `resetTimer`
(line 103), while a pass that goes to sleep because the long press engaged
with the timer not expired goes to sleep with `previousMillis` as it was:
lines 198-201 have no `resetTimer()`. -/
theorem baseline_reset_only_on_timer_expiry (cfg : Config) (s : State) (inp : LoopInput) :
    (timerExpired inp.millisCheck s = true →
      powerDownCalls (loop cfg s inp) = powerDownCalls s + 1 ∧
      (loop cfg s inp).previousMillis = inp.millisReset % ULONG_MOD) ∧
    (timerExpired inp.millisCheck s = false → longPressEngages cfg s inp = true →
      powerDownCalls (loop cfg s inp) = powerDownCalls s + 1 ∧
      (loop cfg s inp).previousMillis = s.previousMillis) := by
  constructor
  · intro he
    rw [loop_powerDownCalls, loop_previousMillis]
    simp [powerDownTrigger, he]
  · intro he hl
    rw [loop_powerDownCalls, loop_previousMillis]
    simp [powerDownTrigger, he, hl]

set_option maxRecDepth 100000 in
/-- What the stale baseline does on the shipped configuration
(`sleepHours = 1`). A long press that engages 59 minutes after the baseline
puts the device to sleep with the baseline still at `0`; the clock stands
still while the CPU is halted, so one minute of running after the wake the
clock reads `3600000`, the timer expires and the device goes to sleep again.
After a sleep by idle timeout the baseline is the clock value `3600000`, and
one minute of running later the timer has not expired. -/
theorem long_press_sleep_then_early_expiry :
    (timerExpired lateHeldSample.millisCheck nearLongPressState = false ∧
     powerDownCalls (loop sourceConfig nearLongPressState lateHeldSample) =
       powerDownCalls nearLongPressState + 1 ∧
     (loop sourceConfig nearLongPressState lateHeldSample).previousMillis = 0 ∧
     timerExpired 3600000 (loop sourceConfig nearLongPressState lateHeldSample) = true ∧
     powerDownCalls (loop sourceConfig
         (loop sourceConfig nearLongPressState lateHeldSample) hourReleasedSample) =
       powerDownCalls nearLongPressState + 2) ∧
    (timerExpired hourHeldSample.millisCheck bootedState = true ∧
     (loop sourceConfig bootedState hourHeldSample).previousMillis = 3600000 ∧
     timerExpired 3660000 (loop sourceConfig bootedState hourHeldSample) = false) := by
  decide

/-! ## C12: what triggers `powerDown` -/

theorem loop_trace_suffix_of_no_trigger (cfg : Config) (s : State) (inp : LoopInput)
    (h : powerDownTrigger cfg s inp = false) :
    List.IsSuffix [Event.setBrightness BRIGHTNESS, Event.ledShow BRIGHTNESS]
      (loop cfg s inp).trace := by
  obtain ⟨mc, mr, p⟩ := inp
  cases p
  · rw [loop_released_eq]
    simp only [powerDownTrigger, longPressEngages, Bool.false_and, Bool.or_false] at h
    refine ⟨s.trace ++ [Event.poweredOnWrite true, Event.updateColours] ++
      (if isShortPress s ⟨mc, mr, false⟩
        then incrementEvents (nextSleepHours cfg s.sleepHours) else []), ?_⟩
    simp [h]
  · rw [loop_pressed_eq]
    simp only [powerDownTrigger, longPressEngages, Bool.true_and, Bool.or_eq_false_iff] at h
    refine ⟨s.trace ++ [Event.poweredOnWrite true, Event.updateColours], ?_⟩
    simp [h.1, h.2]

/-- C12. In every pass, `powerDown` is called (once) exactly when the idle
timer expired in the pass's `checkSleepTimer` or the long press engaged in it
(button sampled pressed, `longPress` false before, and the incremented 16-bit
hold counter at least `LONG_PRESS_TICKS`); in every other pass `powerDown` is
not called, `poweredOn` is true at the end, and the brightness is set to
`BRIGHTNESS` right before the frame is shown. -/
theorem power_down_trigger (cfg : Config) (s : State) (inp : LoopInput) :
    ((timerExpired inp.millisCheck s = true ∨
        (inp.pressed = true ∧ s.longPress = false ∧
          (s.buttonHoldCount + 1) % 65536 ≥ cfg.LONG_PRESS_TICKS)) →
      powerDownCalls (loop cfg s inp) = powerDownCalls s + 1) ∧
    (¬ (timerExpired inp.millisCheck s = true ∨
        (inp.pressed = true ∧ s.longPress = false ∧
          (s.buttonHoldCount + 1) % 65536 ≥ cfg.LONG_PRESS_TICKS)) →
      powerDownCalls (loop cfg s inp) = powerDownCalls s ∧
      (loop cfg s inp).poweredOn = true ∧
      (loop cfg s inp).brightness = BRIGHTNESS ∧
      List.IsSuffix [Event.setBrightness BRIGHTNESS, Event.ledShow BRIGHTNESS]
        (loop cfg s inp).trace) := by
  constructor
  · intro h
    have ht : powerDownTrigger cfg s inp = true := (powerDownTrigger_iff cfg s inp).mpr h
    rw [loop_powerDownCalls, ht]
    rfl
  · intro h
    have ht : powerDownTrigger cfg s inp = false := by
      cases hb : powerDownTrigger cfg s inp
      · rfl
      · exact absurd ((powerDownTrigger_iff cfg s inp).mp hb) h
    refine ⟨?_, ?_, loop_brightness cfg s inp, loop_trace_suffix_of_no_trigger cfg s inp ht⟩
    · rw [loop_powerDownCalls, ht]; rfl
    · rw [loop_poweredOn, ht]; rfl

set_option maxRecDepth 100000 in
theorem power_down_trigger_witness :
    powerDownCalls (loop sourceConfig bootedState hourReleasedSample) =
      powerDownCalls bootedState + 1 ∧
    powerDownCalls (loop sourceConfig nearLongPressState heldSample) =
      powerDownCalls nearLongPressState + 1 ∧
    (loop sourceConfig bootedState heldSample).poweredOn = true ∧
    powerDownCalls (loop sourceConfig bootedState heldSample) = powerDownCalls bootedState :=
  ⟨(power_down_trigger sourceConfig bootedState hourReleasedSample).1 (Or.inl (by decide)),
   (power_down_trigger sourceConfig nearLongPressState heldSample).1
     (Or.inr ⟨rfl, rfl, by decide⟩),
   ((power_down_trigger sourceConfig bootedState heldSample).2 (by decide)).2.1,
   ((power_down_trigger sourceConfig bootedState heldSample).2 (by decide)).1⟩

/-! ## C13: the long press engages once per hold -/

/-- A pressed pass without idle timeout, taken with `longPress` already set,
does not take the long-press branch, whatever the hold counter does. -/
theorem loop_pressed_latched (cfg : Config) (s : State) (inp : LoopInput)
    (hp : inp.pressed = true) (he : timerExpired inp.millisCheck s = false)
    (hl : s.longPress = true) :
    (loop cfg s inp).longPress = true ∧
    powerOffWrites (loop cfg s inp) = powerOffWrites s ∧
    powerDownCalls (loop cfg s inp) = powerDownCalls s := by
  have hle : longPressEngages cfg s inp = false := by simp [longPressEngages, hl]
  have ht : powerDownTrigger cfg s inp = false := by simp [powerDownTrigger, he, hle]
  refine ⟨?_, ?_, ?_⟩
  · obtain ⟨mc, mr, p⟩ := inp
    simp only at hp
    subst hp
    rw [loop_pressed_eq]
    simp [hl]
  · have h := loop_eventCount cfg s inp (Event.poweredOnWrite false)
    simp only [eventCount] at h
    rw [powerOffWrites, h, hle, ht, he]
    have hsp : isShortPress s inp = false := by simp [isShortPress, hp]
    rw [hsp]
    simp [powerOffWrites, BRIGHTNESS]
  · rw [loop_powerDownCalls, ht]; rfl

theorem runLoop_held_latched (cfg : Config) (held : List LoopInput) (s : State)
    (hp : ∀ i ∈ held, i.pressed = true) (hno : noIdleTimeout cfg s held = true)
    (hl : s.longPress = true) :
    (runLoop cfg s held).longPress = true ∧
    powerOffWrites (runLoop cfg s held) = powerOffWrites s ∧
    powerDownCalls (runLoop cfg s held) = powerDownCalls s := by
  induction held generalizing s with
  | nil => simp [runLoop_nil, hl]
  | cons inp rest ih =>
    simp only [noIdleTimeout, Bool.and_eq_true, Bool.not_eq_true'] at hno
    have hstep := loop_pressed_latched cfg s inp (hp inp (List.mem_cons_self _ _)) hno.1 hl
    have hrest := ih (loop cfg s inp) (fun i hi => hp i (List.mem_cons_of_mem _ hi)) hno.2
      hstep.1
    rw [runLoop_cons]
    exact ⟨hrest.1, hrest.2.1.trans hstep.2.1, hrest.2.2.trans hstep.2.2⟩

theorem noIdleTimeout_take (cfg : Config) (inputs : List LoopInput) (s : State) (k : Nat)
    (h : noIdleTimeout cfg s inputs = true) :
    noIdleTimeout cfg s (inputs.take k) = true ∧
    noIdleTimeout cfg (runLoop cfg s (inputs.take k)) (inputs.drop k) = true := by
  have hs := List.take_append_drop k inputs
  rw [← hs, noIdleTimeout_append, Bool.and_eq_true] at h
  exact h

/-- A hold at least `LONG_PRESS_TICKS` passes long, from a state with the hold
counter at zero and `longPress` clear, ends with `longPress` set after exactly
one write `poweredOn = false` and one `powerDown`. -/
theorem runLoop_held_through (cfg : Config) (held : List LoopInput) (s : State)
    (hT1 : 1 ≤ cfg.LONG_PRESS_TICKS) (hT2 : cfg.LONG_PRESS_TICKS ≤ 65535)
    (hcount : s.buttonHoldCount = 0) (hlong : s.longPress = false)
    (hp : ∀ i ∈ held, i.pressed = true) (hno : noIdleTimeout cfg s held = true)
    (hlen : cfg.LONG_PRESS_TICKS ≤ held.length) :
    (runLoop cfg s held).longPress = true ∧
    powerOffWrites (runLoop cfg s held) = powerOffWrites s + 1 ∧
    powerDownCalls (runLoop cfg s held) = powerDownCalls s + 1 := by
  have hsplit : held.take (cfg.LONG_PRESS_TICKS - 1) ++ held.drop (cfg.LONG_PRESS_TICKS - 1)
      = held := List.take_append_drop _ _
  have htl : (held.take (cfg.LONG_PRESS_TICKS - 1)).length = cfg.LONG_PRESS_TICKS - 1 := by
    rw [List.length_take]; omega
  have hdl : 0 < (held.drop (cfg.LONG_PRESS_TICKS - 1)).length := by
    rw [List.length_drop]; omega
  obtain ⟨hnoInit, hnoRest⟩ := noIdleTimeout_take cfg held s (cfg.LONG_PRESS_TICKS - 1) hno
  obtain ⟨h1, h2, -, -, -, -, h7, h8⟩ :=
    runLoop_held_below cfg (held.take (cfg.LONG_PRESS_TICKS - 1)) s
      (fun i hi => hp i (List.mem_of_mem_take hi)) hnoInit hlong (by omega) (by omega)
  cases hd : held.drop (cfg.LONG_PRESS_TICKS - 1) with
  | nil => rw [hd] at hdl; simp at hdl
  | cons x rest =>
    rw [hd] at hnoRest hsplit
    simp only [noIdleTimeout, Bool.and_eq_true, Bool.not_eq_true'] at hnoRest
    have hxp : x.pressed = true := by
      apply hp; rw [← hsplit]; simp
    have hrp : ∀ i ∈ rest, i.pressed = true := by
      intro i hi; apply hp; rw [← hsplit]; simp [hi]
    have heng := loop_pressed_engage cfg _ x hxp hnoRest.1 h2 (by omega) (by omega)
    have e1 : (loop cfg (runLoop cfg s (held.take (cfg.LONG_PRESS_TICKS - 1))) x).longPress
        = true := by rw [heng]
    have e2 : powerOffWrites (loop cfg (runLoop cfg s (held.take (cfg.LONG_PRESS_TICKS - 1))) x)
        = powerOffWrites s + 1 := by
      rw [heng, ← h7]
      simp [powerOffWrites, List.count_append, powerDownEvents_count_off, BRIGHTNESS]
    have e3 : powerDownCalls (loop cfg (runLoop cfg s (held.take (cfg.LONG_PRESS_TICKS - 1))) x)
        = powerDownCalls s + 1 := by
      rw [heng, ← h8]
      simp [powerDownCalls, List.count_append, powerDownEvents_count_powerDown, BRIGHTNESS]
    have hl := runLoop_held_latched cfg rest _ hrp hnoRest.2 e1
    have hrun : runLoop cfg s held =
        runLoop cfg (loop cfg (runLoop cfg s (held.take (cfg.LONG_PRESS_TICKS - 1))) x) rest := by
      conv_lhs => rw [← hsplit]
      rw [runLoop_append, runLoop_cons]
    rw [hrun]
    exact ⟨hl.1, hl.2.1.trans e2, hl.2.2.trans e3⟩

/-- C13. From the reset press state, along a continuous hold of at least
`LONG_PRESS_TICKS` pressed passes without idle-timer expiry, the long-press
branch of line 198 is taken in the pass numbered `LONG_PRESS_TICKS` and in no
other: after `k` passes `longPress` is set exactly when `k` has reached
`LONG_PRESS_TICKS`, and `poweredOn = false` has been written zero times before
and exactly once from then on. The hold may be of any length, beyond 65535
passes included, where the 16-bit hold counter wraps. -/
theorem long_press_fires_once (cfg : Config) (s : State) (held : List LoopInput)
    (hT1 : 1 ≤ cfg.LONG_PRESS_TICKS) (hT2 : cfg.LONG_PRESS_TICKS ≤ 65535)
    (hcount : s.buttonHoldCount = 0) (hlong : s.longPress = false)
    (hp : ∀ i ∈ held, i.pressed = true) (hno : noIdleTimeout cfg s held = true)
    (hlen : cfg.LONG_PRESS_TICKS ≤ held.length) :
    (∀ k, k ≤ held.length →
      (runLoop cfg s (held.take k)).longPress = decide (cfg.LONG_PRESS_TICKS ≤ k) ∧
      powerOffWrites (runLoop cfg s (held.take k)) =
        powerOffWrites s + (if cfg.LONG_PRESS_TICKS ≤ k then 1 else 0)) ∧
    (∀ k inp, held[k]? = some inp →
      (longPressEngages cfg (runLoop cfg s (held.take k)) inp = true ↔
        k + 1 = cfg.LONG_PRESS_TICKS)) ∧
    powerOffWrites (runLoop cfg s held) = powerOffWrites s + 1 := by
  have hA : ∀ k, k ≤ held.length →
      (k < cfg.LONG_PRESS_TICKS →
        (runLoop cfg s (held.take k)).longPress = false ∧
        (runLoop cfg s (held.take k)).buttonHoldCount = k ∧
        powerOffWrites (runLoop cfg s (held.take k)) = powerOffWrites s) ∧
      (cfg.LONG_PRESS_TICKS ≤ k →
        (runLoop cfg s (held.take k)).longPress = true ∧
        powerOffWrites (runLoop cfg s (held.take k)) = powerOffWrites s + 1) := by
    intro k hk
    have hlk : (held.take k).length = k := by rw [List.length_take]; omega
    have hpk : ∀ i ∈ held.take k, i.pressed = true := fun i hi => hp i (List.mem_of_mem_take hi)
    have hnk := (noIdleTimeout_take cfg held s k hno).1
    constructor
    · intro hlt
      obtain ⟨h1, h2, -, -, -, -, h7, -⟩ :=
        runLoop_held_below cfg (held.take k) s hpk hnk hlong (by omega) (by omega)
      exact ⟨h2, by rw [h1, hlk, hcount]; omega, h7⟩
    · intro hge
      have h := runLoop_held_through cfg (held.take k) s hT1 hT2 hcount hlong hpk hnk
        (by omega)
      exact ⟨h.1, h.2.1⟩
  refine ⟨?_, ?_, ?_⟩
  · intro k hk
    by_cases hge : cfg.LONG_PRESS_TICKS ≤ k
    · have h := (hA k hk).2 hge
      simp [h.1, h.2, hge]
    · have h := (hA k hk).1 (by omega)
      simp [h.1, h.2.2, hge]
  · intro k inp hk
    have hmem : inp ∈ held := List.getElem?_mem hk
    have hkl : k < held.length := by
      obtain ⟨h, -⟩ := List.getElem?_eq_some.mp hk
      exact h
    have hpi := hp inp hmem
    by_cases hge : cfg.LONG_PRESS_TICKS ≤ k
    · have h := (hA k (by omega)).2 hge
      simp only [longPressEngages, h.1, hpi, Bool.not_true, Bool.and_false, Bool.false_and,
        Bool.false_eq_true, false_iff]
      omega
    · have h := (hA k (by omega)).1 (by omega)
      have hm : (k + 1) % 65536 = k + 1 := Nat.mod_eq_of_lt (by omega)
      simp only [longPressEngages, h.1, h.2.1, hpi, hm, Bool.not_false, Bool.and_self,
        Bool.true_and, decide_eq_true_eq]
      omega
  · have h := (hA held.length (le_refl _)).2 hlen
    rw [List.take_length] at h
    exact h.2

theorem timerExpired_congr (now : Nat) (s t : State)
    (h1 : t.previousMillis = s.previousMillis) (h2 : t.sleepHours = s.sleepHours) :
    timerExpired now t = timerExpired now s := by
  simp [timerExpired, elapsedMillis, sleepInterval, h1, h2]

/-- Repeating a pressed sample whose clock value does not expire the timer
never expires it: pressed passes leave the baseline and `sleepHours` alone. -/
theorem noIdleTimeout_replicate_held (cfg : Config) (x : LoopInput) (hx : x.pressed = true)
    (n : Nat) (s : State) (he : timerExpired x.millisCheck s = false) :
    noIdleTimeout cfg s (List.replicate n x) = true := by
  induction n generalizing s with
  | zero => rfl
  | succ n ih =>
    rw [List.replicate_succ, noIdleTimeout, he]
    have hsp : isShortPress s x = false := by simp [isShortPress, hx]
    have h1 : (loop cfg s x).previousMillis = s.previousMillis := by
      rw [loop_previousMillis, he]; rfl
    have h2 : (loop cfg s x).sleepHours = s.sleepHours := by
      rw [loop_sleepHours, hsp]; rfl
    have he2 : timerExpired x.millisCheck (loop cfg s x) = false := by
      rw [timerExpired_congr _ _ _ h1 h2]; exact he
    simp [ih _ he2]

theorem long_press_fires_once_witness :
    noIdleTimeout sourceConfig bootedState (List.replicate 70000 heldSample) = true ∧
    powerOffWrites (runLoop sourceConfig bootedState (List.replicate 70000 heldSample)) =
      powerOffWrites bootedState + 1 := by
  have hno : noIdleTimeout sourceConfig bootedState (List.replicate 70000 heldSample) = true :=
    noIdleTimeout_replicate_held sourceConfig heldSample rfl 70000 bootedState (by decide)
  have h := long_press_fires_once sourceConfig bootedState (List.replicate 70000 heldSample)
    (by decide) (by decide) rfl rfl
    (fun i hi => by rw [List.eq_of_mem_replicate hi]; rfl) hno
    (by rw [List.length_replicate]; decide)
  exact ⟨hno, h.2.2⟩

/-! ## Per-pass counts of the power-down events -/

theorem incrementEvents_count_sleep_events (k : Nat) :
    (incrementEvents k).count Event.callWakeUp = 0 ∧
    (incrementEvents k).count Event.attachWake = 0 ∧
    (incrementEvents k).count Event.sleepCpu = 0 ∧
    (incrementEvents k).count (Event.ledBuiltinWrite false) = 0 := by
  have a1 : fadeOutEvents.count Event.callWakeUp = 0 := by decide
  have a2 : fadeInEvents.count Event.callWakeUp = 0 := by decide
  have a3 : blinkEvents.count Event.callWakeUp = 0 := by decide
  have b1 : fadeOutEvents.count Event.attachWake = 0 := by decide
  have b2 : fadeInEvents.count Event.attachWake = 0 := by decide
  have b3 : blinkEvents.count Event.attachWake = 0 := by decide
  have c1 : fadeOutEvents.count Event.sleepCpu = 0 := by decide
  have c2 : fadeInEvents.count Event.sleepCpu = 0 := by decide
  have c3 : blinkEvents.count Event.sleepCpu = 0 := by decide
  have d1 : fadeOutEvents.count (Event.ledBuiltinWrite false) = 0 := by decide
  have d2 : fadeInEvents.count (Event.ledBuiltinWrite false) = 0 := by decide
  have d3 : blinkEvents.count (Event.ledBuiltinWrite false) = 0 := by decide
  refine ⟨?_, ?_, ?_, ?_⟩
  · simp [incrementEvents, count_flashEvents, a1, a2, a3]
  · simp [incrementEvents, count_flashEvents, b1, b2, b3]
  · simp [incrementEvents, count_flashEvents, c1, c2, c3]
  · simp [incrementEvents, count_flashEvents, d1, d2, d3]

theorem powerDownEvents_count_sleep_events :
    powerDownEvents.count Event.attachWake = 1 ∧
    powerDownEvents.count Event.sleepCpu = 1 ∧
    powerDownEvents.count (Event.ledBuiltinWrite false) = 1 := by decide

theorem loop_wakeUpCalls (cfg : Config) (s : State) (inp : LoopInput) :
    wakeUpCalls (loop cfg s inp) =
      wakeUpCalls s + (if powerDownTrigger cfg s inp then 1 else 0) := by
  have h := loop_eventCount cfg s inp Event.callWakeUp
  simp only [eventCount] at h
  rw [wakeUpCalls, h, (incrementEvents_count_sleep_events _).1, powerDownEvents_count_wake]
  simp [wakeUpCalls, BRIGHTNESS]

theorem loop_sleep_event_counts (cfg : Config) (s : State) (inp : LoopInput) :
    eventCount Event.attachWake (loop cfg s inp) =
      eventCount Event.attachWake s + (if powerDownTrigger cfg s inp then 1 else 0) ∧
    eventCount Event.sleepCpu (loop cfg s inp) =
      eventCount Event.sleepCpu s + (if powerDownTrigger cfg s inp then 1 else 0) ∧
    eventCount (Event.ledBuiltinWrite false) (loop cfg s inp) =
      eventCount (Event.ledBuiltinWrite false) s +
        (if powerDownTrigger cfg s inp then 1 else 0) := by
  refine ⟨?_, ?_, ?_⟩
  · rw [loop_eventCount, (incrementEvents_count_sleep_events _).2.1,
      powerDownEvents_count_sleep_events.1]
    simp [BRIGHTNESS]
  · rw [loop_eventCount, (incrementEvents_count_sleep_events _).2.2.1,
      powerDownEvents_count_sleep_events.2.1]
    simp [BRIGHTNESS]
  · rw [loop_eventCount, (incrementEvents_count_sleep_events _).2.2.2,
      powerDownEvents_count_sleep_events.2.2]
    simp [BRIGHTNESS]

theorem loop_powerOffWrites (cfg : Config) (s : State) (inp : LoopInput) :
    powerOffWrites (loop cfg s inp) =
      powerOffWrites s + (if timerExpired inp.millisCheck s then 1 else 0) +
        (if longPressEngages cfg s inp then 1 else 0) := by
  have h := loop_eventCount cfg s inp (Event.poweredOnWrite false)
  simp only [eventCount] at h
  rw [powerOffWrites, h, incrementEvents_count_off, powerDownEvents_count_off]
  cases timerExpired inp.millisCheck s <;> cases longPressEngages cfg s inp <;>
    simp [powerOffWrites, BRIGHTNESS]

theorem loop_pressed_fields (cfg : Config) (s : State) (inp : LoopInput)
    (hp : inp.pressed = true) :
    (loop cfg s inp).buttonHoldCount = (s.buttonHoldCount + 1) % 65536 ∧
    (loop cfg s inp).longPress =
      (s.longPress || decide ((s.buttonHoldCount + 1) % 65536 ≥ cfg.LONG_PRESS_TICKS)) ∧
    (loop cfg s inp).ignorePress = (s.ignorePress || powerDownTrigger cfg s inp) := by
  obtain ⟨mc, mr, p⟩ := inp
  simp only at hp
  subst hp
  rw [loop_pressed_eq]
  simp [powerDownTrigger, longPressEngages, Bool.or_assoc]

theorem loop_released_fields (cfg : Config) (s : State) (inp : LoopInput)
    (hp : inp.pressed = false) :
    (loop cfg s inp).buttonHoldCount = 0 ∧
    (loop cfg s inp).longPress = false ∧
    (loop cfg s inp).ignorePress = timerExpired inp.millisCheck s := by
  obtain ⟨mc, mr, p⟩ := inp
  simp only at hp
  subst hp
  rw [loop_released_eq]
  exact ⟨rfl, rfl, rfl⟩

/-! ## C14: a press held on after an idle-timeout sleep -/

/-- A hold that starts with the pass in which the idle timer expires: the
device sleeps and wakes with `ignorePress` set and the hold counter at 1, and
when the counter reaches `LONG_PRESS_TICKS` the long-press branch is taken
although `ignorePress` is set; line 198 does not consult it. -/
theorem hold_after_timeout_sleep (cfg : Config) (s : State) (x : LoopInput) (n : Nat)
    (hx : x.pressed = true)
    (hexp : timerExpired x.millisCheck s = true)
    (hquiet : timerExpired x.millisCheck (loop cfg s x) = false)
    (hcount : s.buttonHoldCount = 0) (hlong : s.longPress = false)
    (hT : cfg.LONG_PRESS_TICKS = n + 2) (hT2 : cfg.LONG_PRESS_TICKS ≤ 65535) :
    ((loop cfg s x).buttonHoldCount = 1 ∧
     (loop cfg s x).longPress = false ∧
     (loop cfg s x).ignorePress = true ∧
     powerDownCalls (loop cfg s x) = powerDownCalls s + 1 ∧
     wakeUpCalls (loop cfg s x) = wakeUpCalls s + 1) ∧
    noIdleTimeout cfg (loop cfg s x) (List.replicate (n + 1) x) = true ∧
    ((runLoop cfg s (List.replicate (n + 1) x)).ignorePress = true ∧
     (runLoop cfg s (List.replicate (n + 1) x)).longPress = false ∧
     powerDownCalls (runLoop cfg s (List.replicate (n + 1) x)) = powerDownCalls s + 1) ∧
    ((runLoop cfg s (List.replicate (n + 2) x)).longPress = true ∧
     (runLoop cfg s (List.replicate (n + 2) x)).poweredOn = false ∧
     powerOffWrites (runLoop cfg s (List.replicate (n + 2) x)) = powerOffWrites s + 2 ∧
     powerDownCalls (runLoop cfg s (List.replicate (n + 2) x)) = powerDownCalls s + 2) := by
  have htrig : powerDownTrigger cfg s x = true := by simp [powerDownTrigger, hexp]
  have hneng : longPressEngages cfg s x = false := by
    simp only [longPressEngages, hx, hlong, hcount, Bool.not_false, Bool.and_self,
      Bool.true_and, decide_eq_false_iff_not]
    omega
  obtain ⟨f1, f2, f3⟩ := loop_pressed_fields cfg s x hx
  have g1 : (loop cfg s x).buttonHoldCount = 1 := by rw [f1, hcount]
  have g2 : (loop cfg s x).longPress = false := by
    rw [f2, hlong, hcount]
    simp only [Bool.false_or, decide_eq_false_iff_not]
    omega
  have g3 : (loop cfg s x).ignorePress = true := by rw [f3, htrig, Bool.or_true]
  have g4 : powerDownCalls (loop cfg s x) = powerDownCalls s + 1 := by
    rw [loop_powerDownCalls, htrig]; rfl
  have g5 : wakeUpCalls (loop cfg s x) = wakeUpCalls s + 1 := by
    rw [loop_wakeUpCalls, htrig]; rfl
  have g6 : powerOffWrites (loop cfg s x) = powerOffWrites s + 1 := by
    rw [loop_powerOffWrites, hexp, hneng]; rfl
  have hp : ∀ m, ∀ i ∈ List.replicate m x, i.pressed = true :=
    fun m i hi => by rw [List.eq_of_mem_replicate hi]; exact hx
  have hnoAll := noIdleTimeout_replicate_held cfg x hx (n + 1) _ hquiet
  have hnoInit := noIdleTimeout_replicate_held cfg x hx n _ hquiet
  obtain ⟨h1, h2, h3, -, -, -, h7, h8⟩ :=
    runLoop_held_below cfg (List.replicate n x) (loop cfg s x) (hp n) hnoInit g2
      (by rw [g1, List.length_replicate]; omega) (by omega)
  have hcnt : (runLoop cfg (loop cfg s x) (List.replicate n x)).buttonHoldCount = n + 1 := by
    rw [h1, g1, List.length_replicate]; omega
  have hlast : timerExpired x.millisCheck (runLoop cfg (loop cfg s x) (List.replicate n x))
      = false := by
    have h := hnoAll
    rw [List.replicate_succ', noIdleTimeout_append, Bool.and_eq_true] at h
    have h' := h.2
    simp only [noIdleTimeout, Bool.and_true, Bool.not_eq_true'] at h'
    exact h'
  have heng : longPressEngages cfg (runLoop cfg (loop cfg s x) (List.replicate n x)) x
      = true := by
    have hm : (n + 1 + 1) % 65536 = n + 1 + 1 := Nat.mod_eq_of_lt (by omega)
    simp only [longPressEngages, hx, h2, hcnt, hm, Bool.not_false, Bool.and_self,
      Bool.true_and, decide_eq_true_eq]
    omega
  have htrig2 : powerDownTrigger cfg (runLoop cfg (loop cfg s x) (List.replicate n x)) x
      = true := by simp [powerDownTrigger, heng]
  have hrunA : runLoop cfg s (List.replicate (n + 1) x) =
      runLoop cfg (loop cfg s x) (List.replicate n x) := by
    rw [List.replicate_succ, runLoop_cons]
  have hrunB : runLoop cfg s (List.replicate (n + 2) x) =
      loop cfg (runLoop cfg (loop cfg s x) (List.replicate n x)) x := by
    rw [List.replicate_succ, runLoop_cons, List.replicate_succ', runLoop_append,
      runLoop_cons, runLoop_nil]
  obtain ⟨-, k2, -⟩ := loop_pressed_fields cfg
    (runLoop cfg (loop cfg s x) (List.replicate n x)) x hx
  refine ⟨⟨g1, g2, g3, g4, g5⟩, hnoAll, ?_, ?_⟩
  · rw [hrunA]
    exact ⟨h3.trans g3, h2, h8.trans g4⟩
  · rw [hrunB]
    refine ⟨?_, ?_, ?_, ?_⟩
    · rw [k2, h2, hcnt]
      have hm : (n + 1 + 1) % 65536 = n + 1 + 1 := Nat.mod_eq_of_lt (by omega)
      simp only [hm, Bool.false_or, decide_eq_true_eq]
      omega
    · rw [loop_poweredOn, htrig2]; rfl
    · rw [loop_powerOffWrites, hlast, heng, h7, g6]; rfl
    · rw [loop_powerDownCalls, htrig2, h8, g4]; rfl

set_option maxRecDepth 100000 in
/-- C14, the code at the failing input. From the booted state the button is
sampled pressed at every pass. In the first pass the idle timer expires with
the hold counter at 1, below `LONG_PRESS_TICKS = 700`: the device sleeps, is
woken, and `ignorePress` is set. No later pass expires the timer. After 699
passes in all nothing more has happened, and on pass 700 the long-press branch
is taken all the same: `longPress` is set, `poweredOn = false` is written a
second time and `powerDown` runs a second time. -/
theorem post_wake_hold_engages_long_press :
    timerExpired hourHeldSample.millisCheck bootedState = true ∧
    ((loop sourceConfig bootedState hourHeldSample).buttonHoldCount = 1 ∧
     (loop sourceConfig bootedState hourHeldSample).longPress = false ∧
     (loop sourceConfig bootedState hourHeldSample).ignorePress = true ∧
     powerDownCalls (loop sourceConfig bootedState hourHeldSample) =
       powerDownCalls bootedState + 1 ∧
     wakeUpCalls (loop sourceConfig bootedState hourHeldSample) =
       wakeUpCalls bootedState + 1) ∧
    noIdleTimeout sourceConfig (loop sourceConfig bootedState hourHeldSample)
      (List.replicate 699 hourHeldSample) = true ∧
    ((runLoop sourceConfig bootedState (List.replicate 699 hourHeldSample)).ignorePress = true ∧
     (runLoop sourceConfig bootedState (List.replicate 699 hourHeldSample)).longPress = false ∧
     powerDownCalls (runLoop sourceConfig bootedState (List.replicate 699 hourHeldSample)) =
       powerDownCalls bootedState + 1) ∧
    ((runLoop sourceConfig bootedState (List.replicate 700 hourHeldSample)).longPress = true ∧
     (runLoop sourceConfig bootedState (List.replicate 700 hourHeldSample)).poweredOn = false ∧
     powerOffWrites (runLoop sourceConfig bootedState (List.replicate 700 hourHeldSample)) =
       powerOffWrites bootedState + 2 ∧
     powerDownCalls (runLoop sourceConfig bootedState (List.replicate 700 hourHeldSample)) =
       powerDownCalls bootedState + 2) :=
  ⟨by decide,
   hold_after_timeout_sleep sourceConfig bootedState hourHeldSample 698 rfl (by decide)
     (by decide) rfl rfl rfl (by decide)⟩

/-! ## C15: the hold counter and the press state -/

/-- C15, counterexample. A pressed pass taken with the hold counter at 65535
(the state a hold of 65535 passes leaves: long press engaged, woken with
`ignorePress` set) leaves the counter at 0, not above its old value; and a
released pass in which the idle timer expires ends with `ignorePress` set,
not in the reset state. -/
theorem hold_counter_invariant_counterexample :
    (loop sourceConfig fullCounterState
        heldSample).buttonHoldCount = 0 ∧
    ¬ (fullCounterState.buttonHoldCount <
      (loop sourceConfig fullCounterState
        heldSample).buttonHoldCount) ∧
    (loop sourceConfig bootedState hourReleasedSample).ignorePress = true ∧
    (loop sourceConfig bootedState hourReleasedSample).ignorePress ≠ false := by
  decide

/-- C15, amended. A pass that samples the button pressed leaves the hold
counter at the old value plus one modulo 65536: one more than before for
every old value below 65535, and 0 for the old value 65535. A pass that
samples it released leaves the hold counter at 0 and `longPress` clear, and
leaves `ignorePress` clear unless the idle timer expired in that pass, in
which case the device has slept and `wakeUp` has set `ignorePress`. -/
theorem hold_counter_step (cfg : Config) (s : State) (inp : LoopInput) :
    (inp.pressed = true →
      (loop cfg s inp).buttonHoldCount = (s.buttonHoldCount + 1) % 65536 ∧
      (s.buttonHoldCount < 65535 →
        (loop cfg s inp).buttonHoldCount = s.buttonHoldCount + 1 ∧
        s.buttonHoldCount < (loop cfg s inp).buttonHoldCount) ∧
      (s.buttonHoldCount = 65535 → (loop cfg s inp).buttonHoldCount = 0)) ∧
    (inp.pressed = false →
      (loop cfg s inp).buttonHoldCount = 0 ∧
      (loop cfg s inp).longPress = false ∧
      (loop cfg s inp).ignorePress = timerExpired inp.millisCheck s) := by
  obtain ⟨mc, mr, p⟩ := inp
  constructor
  · intro hp
    simp only at hp
    subst hp
    have hc : (loop cfg s ⟨mc, mr, true⟩).buttonHoldCount = (s.buttonHoldCount + 1) % 65536 := by
      rw [loop_pressed_eq]
    refine ⟨hc, ?_, ?_⟩
    · intro h
      rw [hc]
      omega
    · intro h
      rw [hc, h]
  · intro hp
    simp only at hp
    subst hp
    rw [loop_released_eq]
    exact ⟨rfl, rfl, rfl⟩

theorem hold_counter_step_witness :
    (loop sourceConfig bootedState heldSample).buttonHoldCount =
      bootedState.buttonHoldCount + 1 ∧
    (loop sourceConfig fullCounterState
      heldSample).buttonHoldCount = 0 ∧
    (loop sourceConfig { bootedState with buttonHoldCount := 5 } releasedSample).ignorePress =
      timerExpired releasedSample.millisCheck { bootedState with buttonHoldCount := 5 } :=
  ⟨(((hold_counter_step sourceConfig bootedState heldSample).1 rfl).2.1 (by decide)).1,
   ((hold_counter_step sourceConfig
      fullCounterState heldSample).1 rfl).2.2
      rfl,
   ((hold_counter_step sourceConfig { bootedState with buttonHoldCount := 5 }
      releasedSample).2 rfl).2.2⟩

/-! ## C16: only a completed short press changes the preference -/

/-- C16. A pass that is not a short-press release (the button is sampled
pressed, or the hold counter is 0, or `longPress` is set, or `ignorePress` is
set) leaves `sleepHours` and the stored EEPROM byte as they were and does not
call `incrementSleepClock`, whether or not the pass powers down, sleeps and
wakes. -/
theorem sleep_duration_frame (cfg : Config) (s : State) (inp : LoopInput)
    (h : inp.pressed = true ∨ s.buttonHoldCount = 0 ∨ s.longPress = true ∨
      s.ignorePress = true) :
    (loop cfg s inp).sleepHours = s.sleepHours ∧
    (loop cfg s inp).eeprom = s.eeprom ∧
    incrementCalls (loop cfg s inp) = incrementCalls s := by
  have hns : isShortPress s inp = false := by
    rcases h with h | h | h | h <;> simp [isShortPress, h]
  refine ⟨?_, ?_, ?_⟩
  · rw [loop_sleepHours, hns]; rfl
  · rw [loop_eeprom, hns]; rfl
  · rw [loop_incrementCalls, hns]; rfl

set_option maxRecDepth 100000 in
theorem sleep_duration_frame_witness :
    powerDownCalls (loop sourceConfig bootedState hourHeldSample) =
      powerDownCalls bootedState + 1 ∧
    (loop sourceConfig bootedState hourHeldSample).sleepHours = bootedState.sleepHours ∧
    (loop sourceConfig bootedState hourHeldSample).eeprom = bootedState.eeprom ∧
    (loop sourceConfig { bootedState with buttonHoldCount := 5, ignorePress := true }
      releasedSample).sleepHours = bootedState.sleepHours :=
  ⟨by decide,
   (sleep_duration_frame sourceConfig bootedState hourHeldSample (Or.inl rfl)).1,
   (sleep_duration_frame sourceConfig bootedState hourHeldSample (Or.inl rfl)).2.1,
   (sleep_duration_frame sourceConfig { bootedState with buttonHoldCount := 5, ignorePress := true }
     releasedSample (Or.inr (Or.inr (Or.inr rfl)))).1⟩

/-! ## C18: every `powerDown` arms the interrupt and halts -/

/-- The statements of `powerDown` before the re-check of line 179 leave
`poweredOn` as it was at the call. -/
theorem powerDown_prefix_poweredOn (t : State) :
    (emit Event.cli (emit Event.setSleepMode (emit (Event.delay 2000)
      (writeLedBuiltin false (fadeOut (emit Event.callPowerDown t)))))).poweredOn =
      t.poweredOn := by
  simp [emit, writeLedBuiltin, fadeOut_eq]

/-- C18. Nothing in `powerDown` before the re-check writes `poweredOn`, and
`loop()` calls `powerDown` only with `poweredOn` false; so in every pass, from
every state, the numbers of `powerDown` calls, of wake-interrupt armings, of
CPU halts, of `wakeUp` runs and of writes of the status indicator LOW all grow
by the same amount (one if the pass powers down, else zero). Hence a pass that
wrote the indicator LOW also ran `wakeUp` and ends with the indicator HIGH and
`ignorePress` set. -/
theorem power_down_always_sleeps (cfg : Config) (s : State) (inp : LoopInput) :
    (∀ t : State,
      (emit Event.cli (emit Event.setSleepMode (emit (Event.delay 2000)
        (writeLedBuiltin false (fadeOut (emit Event.callPowerDown t)))))).poweredOn =
        t.poweredOn) ∧
    (∀ t : State, t.poweredOn = false → (powerDown t).trace = t.trace ++ powerDownEvents) ∧
    (powerDownCalls (loop cfg s inp) =
        powerDownCalls s + (if powerDownTrigger cfg s inp then 1 else 0) ∧
      eventCount Event.attachWake (loop cfg s inp) =
        eventCount Event.attachWake s + (if powerDownTrigger cfg s inp then 1 else 0) ∧
      eventCount Event.sleepCpu (loop cfg s inp) =
        eventCount Event.sleepCpu s + (if powerDownTrigger cfg s inp then 1 else 0) ∧
      wakeUpCalls (loop cfg s inp) =
        wakeUpCalls s + (if powerDownTrigger cfg s inp then 1 else 0) ∧
      eventCount (Event.ledBuiltinWrite false) (loop cfg s inp) =
        eventCount (Event.ledBuiltinWrite false) s +
          (if powerDownTrigger cfg s inp then 1 else 0)) ∧
    (eventCount (Event.ledBuiltinWrite false) s <
        eventCount (Event.ledBuiltinWrite false) (loop cfg s inp) →
      wakeUpCalls (loop cfg s inp) = wakeUpCalls s + 1 ∧
      eventCount Event.sleepCpu (loop cfg s inp) = eventCount Event.sleepCpu s + 1 ∧
      (loop cfg s inp).ledBuiltin = true ∧
      (loop cfg s inp).ignorePress = true) := by
  obtain ⟨c1, c2, c3⟩ := loop_sleep_event_counts cfg s inp
  refine ⟨powerDown_prefix_poweredOn, ?_, ⟨loop_powerDownCalls cfg s inp, c1, c2,
    loop_wakeUpCalls cfg s inp, c3⟩, ?_⟩
  · intro t ht
    rw [powerDown_eq_of_off t ht]
  · intro hlow
    have ht : powerDownTrigger cfg s inp = true := by
      cases hb : powerDownTrigger cfg s inp
      · rw [c3, hb] at hlow
        simp at hlow
      · rfl
    obtain ⟨l1, l2⟩ := loop_after_powerDown cfg s inp ht
    refine ⟨?_, ?_, l1, l2⟩
    · rw [loop_wakeUpCalls, ht]; rfl
    · rw [c2, ht]; rfl

set_option maxRecDepth 100000 in
theorem power_down_always_sleeps_witness :
    eventCount (Event.ledBuiltinWrite false) bootedState <
      eventCount (Event.ledBuiltinWrite false)
        (loop sourceConfig bootedState hourReleasedSample) ∧
    (loop sourceConfig bootedState hourReleasedSample).ledBuiltin = true ∧
    (loop sourceConfig bootedState hourReleasedSample).ignorePress = true := by
  have hlow : eventCount (Event.ledBuiltinWrite false) bootedState <
      eventCount (Event.ledBuiltinWrite false)
        (loop sourceConfig bootedState hourReleasedSample) := by decide
  have h := (power_down_always_sleeps sourceConfig bootedState hourReleasedSample).2.2.2 hlow
  exact ⟨hlow, h.2.2.1, h.2.2.2⟩

/-! ## C19: the increment and the configured maximum -/

/-- C19, counterexample. With `maxSleepHours = 255` and `sleepHours = 255`
the 8-bit increment wraps to 0, the test of line 153 does not fire, and
`incrementSleepClock` leaves `sleepHours = 0`, outside `[1, 255]`. -/
theorem increment_domain_counterexample :
    1 ≤ widestConfig.maxSleepHours ∧ widestConfig.maxSleepHours ≤ 255 ∧
    (incrementSleepClock widestConfig { bootedState with sleepHours := 255 }).sleepHours = 0 ∧
    ¬ (1 ≤ (incrementSleepClock widestConfig
      { bootedState with sleepHours := 255 }).sleepHours) := by
  have h : (incrementSleepClock widestConfig
      { bootedState with sleepHours := 255 }).sleepHours = 0 := by
    rw [incrementSleepClock_eq]; rfl
  refine ⟨by decide, by decide, h, ?_⟩
  rw [h]; decide

/-- C19, amended. For every `maxSleepHours` in `[1, 255]` and every
`sleepHours = d` up to `maxSleepHours` other than `d = 255`, the value of
`sleepHours` after `incrementSleepClock` is in `[1, maxSleepHours]`; the
excluded case, `d = 255` with `maxSleepHours = 255`, leaves `sleepHours = 0`. -/
theorem increment_stays_in_domain (cfg : Config) (s : State)
    (hmax1 : 1 ≤ cfg.maxSleepHours) (hmax : cfg.maxSleepHours ≤ 255)
    (hd : s.sleepHours ≤ cfg.maxSleepHours) :
    (s.sleepHours ≠ 255 →
      1 ≤ (incrementSleepClock cfg s).sleepHours ∧
      (incrementSleepClock cfg s).sleepHours ≤ cfg.maxSleepHours) ∧
    (s.sleepHours = 255 → (incrementSleepClock cfg s).sleepHours = 0) := by
  have hk : (incrementSleepClock cfg s).sleepHours = nextSleepHours cfg s.sleepHours := by
    rw [incrementSleepClock_eq]
  rw [hk]
  constructor
  · intro hne
    have hm : (s.sleepHours + 1) % 256 = s.sleepHours + 1 := Nat.mod_eq_of_lt (by omega)
    simp only [nextSleepHours, hm]
    split <;> omega
  · intro he
    have hm : (s.sleepHours + 1) % 256 = 0 := by rw [he]
    simp only [nextSleepHours, hm]
    split <;> omega

theorem increment_stays_in_domain_witness :
    1 ≤ (incrementSleepClock widestConfig { bootedState with sleepHours := 254 }).sleepHours ∧
    (incrementSleepClock widestConfig { bootedState with sleepHours := 254 }).sleepHours ≤
      widestConfig.maxSleepHours ∧
    (incrementSleepClock sourceConfig { bootedState with sleepHours := 4 }).sleepHours ≤
      sourceConfig.maxSleepHours :=
  ⟨((increment_stays_in_domain widestConfig { bootedState with sleepHours := 254 }
      (by decide) (by decide) (by decide)).1 (by decide)).1,
   ((increment_stays_in_domain widestConfig { bootedState with sleepHours := 254 }
      (by decide) (by decide) (by decide)).1 (by decide)).2,
   ((increment_stays_in_domain sourceConfig { bootedState with sleepHours := 4 }
      (by decide) (by decide) (by decide)).1 (by decide)).2⟩

end Nightlight
